import Mathlib

/-!
# The bad-habit tracker page controller (`src/script.js`)

A shallow embedding of the `BadHabitTracker` class: the page state the script reads and
writes, the log of what it does to the outside world (HTTP requests, notifications,
console messages, dialogs), and its methods as state transformers.

An `async` method is split at its `await fetch(...)`: the part before the await is a
function that appends the request to `State.pending` together with a `Cont` naming the
code to resume; `fetchSettled` resumes it with the outcome chosen by the network.  The
`await response.json()` / `await response.text()` that follows a resolved `fetch` is
merged with it (the awaiting function changes no state between the two), and a
continuation that awaits another method of the class is resumed when that method ends.

`State` is the page with one controller on it.  The last lines of the script, which build
the controller, are modelled on a `Page` that holds any number of controllers over one
shared `World`; with one controller it behaves as `State` does (`dispatch_single`).
-/

namespace Treker

/-! ## Strings as JavaScript sees them -/

/-- Code points of the ECMAScript `WhiteSpace` and `LineTerminator` productions: the
characters `String.prototype.trim` removes and `parseInt` skips. -/
def isJsWhitespace (c : Char) : Bool :=
  [0x09, 0x0A, 0x0B, 0x0C, 0x0D, 0x20, 0xA0, 0x1680, 0x2028, 0x2029, 0x202F, 0x205F,
    0x3000, 0xFEFF].contains c.toNat || (0x2000 ≤ c.toNat && c.toNat ≤ 0x200A)

/-- The method `String.prototype.trim`. -/
def trim (s : String) : String :=
  ⟨(s.data.dropWhile isJsWhitespace).rdropWhile isJsWhitespace⟩

/-- Truthiness of a string: every string but the empty one. -/
def truthy (s : String) : Bool := s != ""

/-- Truthiness of a property that may be absent, `null`, or a string. -/
def truthyOpt : Option String → Bool
  | none => false
  | some s => truthy s

/-- Truthiness of a property that may be absent, `null`, or a number. -/
def truthyNum : Option Int → Bool
  | none => false
  | some n => n != 0

/-- The expression `x || 0` for a property that may be absent, `null`, or a number. -/
def orZero : Option Int → Int
  | none => 0
  | some n => n

/-- Serialisation of one character of a text node, as `innerHTML` performs it. -/
def escapeChar (c : Char) : List Char :=
  if c = '&' then ['&', 'a', 'm', 'p', ';']
  else if c = '<' then ['&', 'l', 't', ';']
  else if c = '>' then ['&', 'g', 't', ';']
  else if c.toNat = 0xA0 then ['&', 'n', 'b', 's', 'p', ';']
  else [c]

/-- The method `escapeHtml` (script.js 170-174): the text is stored as the text content of
a fresh `div` whose `innerHTML` is read back, which is the HTML serialisation of one text
node. -/
def escapeHtml (text : String) : String :=
  ⟨text.data.flatMap escapeChar⟩

/-- Value of a digit in the given radix, when it is one. -/
def digitValue (radix : Nat) (c : Char) : Option Nat :=
  let v : Option Nat :=
    if '0' ≤ c ∧ c ≤ '9' then some (c.toNat - '0'.toNat)
    else if 'a' ≤ c ∧ c ≤ 'z' then some (c.toNat - 'a'.toNat + 10)
    else if 'A' ≤ c ∧ c ≤ 'Z' then some (c.toNat - 'A'.toNat + 10)
    else none
  v.bind fun d => if d < radix then some d else none

/-- The longest prefix of digits, read as a number; `none` when the prefix is empty. -/
def parseDigits (radix : Nat) : List Char → Option Nat → Option Nat
  | [], acc => acc
  | c :: cs, acc =>
    match digitValue radix c with
    | none => acc
    | some d => parseDigits radix cs (some (acc.getD 0 * radix + d))

/-- The global function `parseInt` called with one argument; `none` is `NaN`.  Numbers are
unbounded integers here, where JavaScript rounds beyond 2^53. -/
def parseInt (s : String) : Option Int :=
  let cs := s.data.dropWhile isJsWhitespace
  let (neg, cs) :=
    match cs with
    | '-' :: r => (true, r)
    | '+' :: r => (false, r)
    | r => (false, r)
  let (radix, cs) :=
    match cs with
    | '0' :: 'x' :: r => (16, r)
    | '0' :: 'X' :: r => (16, r)
    | r => (10, r)
  (parseDigits radix cs none).map fun n => if neg then -(n : Int) else (n : Int)

/-- String conversion of an integer number, as in a template literal. -/
def numToString (n : Int) : String := toString n

/-! ## Data exchanged with the server -/

/-- One element of the `GET /habits/` answer, with the properties `renderHabits` reads. -/
structure Habit where
  id : Int
  name : String
  description : Option String
  frequency : String
  difficulty_level : String
  motivation_text : Option String
deriving DecidableEq, Repr

/-- One element of `habit_stats` in the analytics answer. -/
structure HabitStat where
  habit_name : String
  completion_rate : Option Int
  completed_count : Option Int
deriving DecidableEq, Repr

/-- The `GET /analytics/` answer: `total_stats` is an object (its keys with their values)
and `habit_stats` an array; either may be absent. -/
structure Analytics where
  total_stats : Option (List (String × Int))
  habit_stats : Option (List HabitStat)
deriving DecidableEq, Repr

/-- One element of the `GET /habits/{id}/completions/` answer. -/
structure Completion where
  completion_date : String
  completed : Bool
  craving_level : Option Int
  resistance_level : Option Int
  notes : Option String
deriving DecidableEq, Repr

/-- What `response.json()` yields.  The body is taken to have the shape of one of the
three answers of the service, with properties of the types the service documents; a body
that is not JSON is `malformed`, and so is, for the code that reads it, a body of another
shape than the one its endpoint answers with. -/
inductive Payload where
  | habits (l : List Habit)
  | analytics (a : Analytics)
  | completions (l : List Completion)
  | malformed
deriving DecidableEq, Repr

/-- A response as the script sees it: status, body as text, body as JSON. -/
structure Response where
  status : Nat
  text : String
  json : Payload
deriving DecidableEq, Repr

/-- The property `response.ok`: the status is in the range 200-299. -/
def Response.ok (r : Response) : Bool := 200 ≤ r.status && r.status ≤ 299

/-- How a `fetch` settles: rejected with an error carrying a message, or resolved. -/
inductive FetchOutcome where
  | networkError (message : String)
  | response (r : Response)
deriving DecidableEq, Repr

inductive Method where
  | GET | POST | DELETE
deriving DecidableEq, Repr

/-- The object `formData` of `addHabit` (script.js 201-209). -/
structure HabitForm where
  name : String
  description : String
  habit_type : String
  frequency : String
  target_count : Nat
  motivation_text : String
  difficulty_level : String
deriving DecidableEq, Repr

/-- The object `formData` of `saveCompletion` (script.js 300-307). -/
structure CompletionForm where
  habit_id : Int
  completion_date : String
  completed : Bool
  notes : String
  craving_level : Option Int
  resistance_level : Option Int
deriving DecidableEq, Repr

/-- The request body, before `JSON.stringify`. -/
inductive Body where
  | empty
  | habit (f : HabitForm)
  | completion (f : CompletionForm)
deriving DecidableEq, Repr

/-- One call of `fetch`. -/
structure Request where
  method : Method
  url : String
  body : Body
deriving DecidableEq, Repr

/-! ## The page and the controller -/

/-- One element appended to the body by `showNotification`. -/
structure Notification where
  message : String
  type : String
deriving DecidableEq, Repr

/-- A `Chart` instance: the labels and the data of its single dataset. -/
structure ChartInst where
  id : Nat
  labels : List String
  data : List Int
deriving DecidableEq, Repr

/-- What is to be done when `loadHabits` ends, by the caller that awaits it. -/
inductive AfterLoadHabits where
  | nothing
  | saveCompletion
deriving DecidableEq, Repr

/-- The code waiting for a `fetch` to settle, one per `await fetch(...)` of the script. -/
inductive Cont where
  | loadHabits (after : AfterLoadHabits)
  | loadAnalytics
  | addHabit
  | deleteHabit
  | saveCompletion
  | viewCompletions
deriving DecidableEq, Repr

/-- A request in flight and the code it resumes. -/
structure Pending where
  req : Request
  k : Cont
deriving DecidableEq, Repr

/-- The elements of the page the script touches.  The page itself is not part of the
script: every element the script looks up by id or selector is taken to exist, except the
canvas `progressChart`, whose absence `renderChart` guards against, and the range sliders
are taken to admit the value 0. -/
structure Dom where
  habitName : String
  habitDesc : String
  habitFrequency : String
  motivationText : String
  difficultyLevel : String
  modalHabitId : String
  completionDate : String
  completedCheckbox : Bool
  completionNotes : String
  cravingLevel : String
  resistanceLevel : String
  cravingValue : String
  resistanceValue : String
  modalDisplay : String
  modalScrollTop : Nat
  bodyOverflow : String
  htmlOverflow : String
  activeNav : Option String
  activeTab : Option String
  habitsList : String
  statsGrid : String
  hasCanvas : Bool
  canvasCleared : Nat
  noDataTexts : List String
  notifications : List Notification
  notificationStyles : Bool
deriving DecidableEq, Repr

/-- Values the controls of the two forms take on `reset()`: the ones written in the page. -/
structure FormDefaults where
  habitName : String
  habitDesc : String
  habitFrequency : String
  motivationText : String
  difficultyLevel : String
  modalHabitId : Option String
  completionDate : String
  completedCheckbox : Bool
  completionNotes : String
  cravingLevel : String
  resistanceLevel : String
deriving DecidableEq, Repr

/-- The page, the fields of the controller (`apiBase`, `currentTab`, `chart`), and the
record of its effects. -/
structure State where
  dom : Dom
  defaults : FormDefaults
  today : String
  apiBase : String
  currentTab : String
  chart : Option ChartInst
  liveCharts : List ChartInst
  chartsCreated : Nat
  requests : List Request
  pending : List Pending
  console : List String
  alerts : List String
deriving DecidableEq, Repr

/-! ## Rendering -/

/-- The method `showNotification` (script.js 540-587): one more element on the page, and
the animation styles installed if they were not.  `notifications` keeps every element
shown, in order; its removal by timer five seconds later is not part of the model. -/
def showNotification (message : String) (type : String) (s : State) : State :=
  { s with dom := { s.dom with
      notifications := s.dom.notifications ++ [⟨message, type⟩]
      notificationStyles := true } }

/-- The method `showSuccess` (script.js 532-534). -/
def showSuccess (message : String) (s : State) : State :=
  showNotification message "success" s

/-- The method `showError` (script.js 536-538). -/
def showError (message : String) (s : State) : State :=
  showNotification message "error" s

/-- A call of `console.error`; the message is recorded, the error object is not. -/
def consoleError (label : String) (s : State) : State :=
  { s with console := s.console ++ [label] }

/-- Assignment to the `innerHTML` of one of the two containers the script fills. -/
def setInnerHTML (containerId : String) (html : String) (d : Dom) : Dom :=
  if containerId = "habits-list" then { d with habitsList := html }
  else if containerId = "stats-grid" then { d with statsGrid := html }
  else d

/-- The method `showLoading` (script.js 110-118). -/
def showLoading (containerId : String) (message : String) (s : State) : State :=
  let html : String :=
    "\n            <div class=\"loading\" style=\"text-align: center; padding: 40px; color: #6c757d;\">\n                <div style=\"margin-bottom: 10px;\">⏳</div>\n                " ++ message ++ "\n            </div>\n        "
  { s with dom := setInnerHTML containerId html s.dom }

/-- The method `getDifficultyText` (script.js 176-183): the text of a known level, or the
level itself. -/
def getDifficultyText (level : String) : String :=
  if level = "easy" then "Легко отказаться"
  else if level = "medium" then "Средняя сложность"
  else if level = "hard" then "Очень сложно"
  else level

/-- The method `getFrequencyText` (script.js 185-192): the text of a known frequency, or
the frequency itself. -/
def getFrequencyText (frequency : String) : String :=
  if frequency = "daily" then "Ежедневно"
  else if frequency = "weekly" then "Несколько раз в неделю"
  else if frequency = "monthly" then "Несколько раз в месяц"
  else frequency

/-- The view of an empty list of habits (script.js 124-129). -/
def emptyHabitsHtml : String :=
  "\n                <div style=\"text-align: center; padding: 40px; color: #6c757d;\">\n                    <p>У вас пока нет отслеживаемых вредных привычек.</p>\n                    <p>Добавьте первую привычку для отслеживания!</p>\n                </div>\n            "

/-- The card of one habit: the template literal of `renderHabits` (script.js 133-167). -/
def habitCard (habit : Habit) : String :=
  "\n            <div class=\"habit-card\" data-habit-id=\""
  ++ numToString habit.id ++
  "\">\n                <div class=\"habit-header\">\n                    <div>\n                        <h3>"
  ++ escapeHtml habit.name ++
  "</h3>\n                        <span class=\"difficulty-badge difficulty-"
  ++ habit.difficulty_level ++
  "\">\n                            "
  ++ getDifficultyText habit.difficulty_level ++
  "\n                        </span>\n                    </div>\n                    <button class=\"btn-danger\" onclick=\"tracker.deleteHabit("
  ++ numToString habit.id ++
  ")\" title=\"Удалить привычку\">\n                        Удалить\n                    </button>\n                </div>\n\n                <p>"
  ++ (if truthyOpt habit.description then escapeHtml (habit.description.getD "")
      else "Без описания") ++
  "</p>\n\n                "
  ++ (if truthyOpt habit.motivation_text then
        "\n                    <div class=\"motivation-text\">"
        ++ escapeHtml (habit.motivation_text.getD "") ++
        "</div>\n                "
      else "") ++
  "\n\n                <div class=\"habit-meta\">\n                    <span>"
  ++ getFrequencyText habit.frequency ++
  "</span>\n                    <span>Цель: избегать</span>\n                </div>\n\n                <div class=\"habit-actions\">\n                    <button class=\"btn-success\" onclick=\"tracker.openCompletionModal("
  ++ numToString habit.id ++
  ")\">\n                        Отметить день борьбы\n                    </button>\n                    <button class=\"btn-secondary\" onclick=\"tracker.viewCompletions("
  ++ numToString habit.id ++
  ")\">\n                        Статистика\n                    </button>\n                </div>\n            </div>\n        "

/-- The method `renderHabits` (script.js 120-168). -/
def renderHabits (habits : List Habit) (s : State) : State :=
  if habits.length = 0 then
    { s with dom := { s.dom with habitsList := emptyHabitsHtml } }
  else
    { s with dom := { s.dom with habitsList := String.join (habits.map habitCard) } }

/-- The view of an analytics answer without totals (script.js 363-368). -/
def emptyAnalyticsHtml : String :=
  "\n                <div style=\"text-align: center; padding: 40px; color: #6c757d; grid-column: 1 / -1;\">\n                    <p>Нет данных для отображения аналитики</p>\n                    <p>Добавьте привычки и отмечайте дни борьбы</p>\n                </div>\n            "

/-- The property of `total_stats` with the given key, or 0: `total_stats.key || 0`. -/
def totalStat (totals : List (String × Int)) (key : String) : Int :=
  orZero (totals.lookup key)

/-- The four cards of the totals (script.js 372-389). -/
def totalsHtml (totals : List (String × Int)) : String :=
  "\n            <div class=\"stat-card\">\n                <div class=\"stat-value\">"
  ++ numToString (totalStat totals "total_habits") ++
  "</div>\n                <div class=\"stat-label\">Всего вредных привычек</div>\n            </div>\n            <div class=\"stat-card\">\n                <div class=\"stat-value\">"
  ++ numToString (totalStat totals "daily_habits") ++
  "</div>\n                <div class=\"stat-label\">Ежедневные привычки</div>\n            </div>\n            <div class=\"stat-card\">\n                <div class=\"stat-value\">"
  ++ numToString (totalStat totals "weekly_habits") ++
  "</div>\n                <div class=\"stat-label\">Еженедельные привычки</div>\n            </div>\n            <div class=\"stat-card\">\n                <div class=\"stat-value\">"
  ++ numToString (totalStat totals "monthly_habits") ++
  "</div>\n                <div class=\"stat-label\">Ежемесячные привычки</div>\n            </div>\n        "

/-- The card of one habit in the analytics grid (script.js 393-400). -/
def statCard (stat : HabitStat) : String :=
  "\n                    <div class=\"stat-card\">\n                        <div class=\"stat-value\">"
  ++ numToString (orZero stat.completion_rate) ++
  "%</div>\n                        <div class=\"stat-label\">"
  ++ escapeHtml stat.habit_name ++
  "</div>\n                        <div class=\"stat-sub\">"
  ++ numToString (orZero stat.completed_count) ++
  " из 30 дней без привычки</div>\n                    </div>\n                "

/-- The method `destroy` of a chart: the instance is no longer drawn. -/
def destroyChart (c : ChartInst) (s : State) : State :=
  { s with liveCharts := s.liveCharts.filter fun d => d.id != c.id }

/-- The method `renderChart` (script.js 407-498).  `liveCharts` holds the instances built
by `new Chart` and not destroyed since: what the canvas shows.  The chart library is not
part of the script: `new Chart` is taken to build its instance whatever the canvas shows,
and `destroy` to do nothing on an instance already destroyed. -/
def renderChart (habitStats : List HabitStat) (s : State) : State :=
  if !s.dom.hasCanvas then s
  else
    let s := match s.chart with
      | some c => destroyChart c s
      | none => s
    if habitStats.length = 0 then
      { s with dom := { s.dom with
          canvasCleared := s.dom.canvasCleared + 1
          noDataTexts := s.dom.noDataTexts ++ ["Нет данных для построения графика"] } }
    else
      let labels := habitStats.map fun stat => stat.habit_name
      let data := habitStats.map fun stat => orZero stat.completion_rate
      let c : ChartInst := ⟨s.chartsCreated, labels, data⟩
      { s with
        chart := some c
        liveCharts := s.liveCharts ++ [c]
        chartsCreated := s.chartsCreated + 1 }

/-- The method `renderAnalytics` (script.js 359-405).  The statement
`statsGrid.innerHTML += ...` is modelled as appending to the markup assigned before. -/
def renderAnalytics (analytics : Analytics) (s : State) : State :=
  match analytics.total_stats with
  | none => { s with dom := { s.dom with statsGrid := emptyAnalyticsHtml } }
  | some totals =>
    if totals.length = 0 then
      { s with dom := { s.dom with statsGrid := emptyAnalyticsHtml } }
    else
      let s := { s with dom := { s.dom with statsGrid := totalsHtml totals } }
      let s := (analytics.habit_stats.getD []).foldl
        (fun s stat => { s with dom := { s.dom with
            statsGrid := s.dom.statsGrid ++ statCard stat } }) s
      renderChart (analytics.habit_stats.getD []) s

/-- The text `showCompletions` builds for one record (script.js 520-527). -/
def completionLine (comp : Completion) : String :=
  let status := if comp.completed then "✅ Удалось избежать" else "❌ Не удалось избежать"
  let craving :=
    if truthyNum comp.craving_level then
      " | Тяга: " ++ numToString (orZero comp.craving_level) ++ "/10"
    else ""
  let resistance :=
    if truthyNum comp.resistance_level then
      " | Сопротивление: " ++ numToString (orZero comp.resistance_level) ++ "/10"
    else ""
  let notes :=
    if truthyOpt comp.notes then "\n   Заметки: " ++ comp.notes.getD "" else ""
  comp.completion_date ++ ": " ++ status ++ craving ++ resistance ++ notes

/-- The method `showCompletions` (script.js 514-530): one `alert`. -/
def showCompletions (completions : List Completion) (s : State) : State :=
  if completions.length = 0 then
    { s with alerts := s.alerts ++ ["Нет данных о борьбе с этой привычкой"] }
  else
    { s with alerts := s.alerts ++
        ["История борьбы с привычкой:\n\n" ++
          "\n\n".intercalate (completions.map completionLine)] }

/-! ## The methods that talk to the server -/

/-- A call of `fetch` followed by `await`: the request leaves, and the code `k` waits for
it to settle. -/
def fetch (req : Request) (k : Cont) (s : State) : State :=
  { s with requests := s.requests ++ [req], pending := s.pending ++ [⟨req, k⟩] }

/-- The method `loadHabits` up to its `await fetch` (script.js 94-97). -/
def loadHabits (after : AfterLoadHabits) (s : State) : State :=
  let s := showLoading "habits-list" "Загрузка привычек..." s
  fetch ⟨.GET, s.apiBase ++ "/habits/", .empty⟩ (.loadHabits after) s

/-- The method `loadAnalytics` up to its `await fetch` (script.js 343-346). -/
def loadAnalytics (s : State) : State :=
  let s := showLoading "stats-grid" "Загрузка аналитики..." s
  fetch ⟨.GET, s.apiBase ++ "/analytics/", .empty⟩ .loadAnalytics s

/-- The method `showTab` up to the `await` of the load it starts (script.js 74-92); nothing
follows that `await`. -/
def showTab (tabName : String) (s : State) : State :=
  let s := { s with dom := { s.dom with activeNav := some tabName, activeTab := some tabName } }
  let s := { s with currentTab := tabName }
  if tabName = "habits" then loadHabits .nothing s
  else if tabName = "analytics" then loadAnalytics s
  else s

/-- The method `setDefaultDate` (script.js 69-72); `today` is the date the clock gives. -/
def setDefaultDate (s : State) : State :=
  { s with dom := { s.dom with completionDate := s.today } }

/-- The `catch` block of `loadHabits` (script.js 103-107). -/
def loadHabitsFailed (s : State) : State :=
  renderHabits [] (showError "Ошибка загрузки привычек" (consoleError "Error loading habits:" s))

/-- The rest of `saveCompletion` once the `loadHabits` it awaits has ended
(script.js 329-332), and of the other callers, which do nothing more. -/
def afterLoadHabits (after : AfterLoadHabits) (s : State) : State :=
  match after with
  | .nothing => s
  | .saveCompletion => if s.currentTab = "analytics" then loadAnalytics s else s

/-- The method `loadHabits` from the moment its `fetch` settles (script.js 98-107), then
the caller awaiting it. -/
def loadHabitsResume (after : AfterLoadHabits) (o : FetchOutcome) (s : State) : State :=
  let s := match o with
    | .networkError _ => loadHabitsFailed s
    | .response r =>
      if !r.ok then loadHabitsFailed s
      else match r.json with
        | .habits habits => renderHabits habits s
        | _ => loadHabitsFailed s
  afterLoadHabits after s

/-- The `catch` block of `loadAnalytics` (script.js 352-356). -/
def loadAnalyticsFailed (s : State) : State :=
  renderAnalytics ⟨some [], some []⟩
    (showError "Ошибка загрузки аналитики" (consoleError "Error loading analytics:" s))

/-- The method `loadAnalytics` from the moment its `fetch` settles (script.js 347-356). -/
def loadAnalyticsResume (o : FetchOutcome) (s : State) : State :=
  match o with
  | .networkError _ => loadAnalyticsFailed s
  | .response r =>
    if !r.ok then loadAnalyticsFailed s
    else match r.json with
      | .analytics analytics => renderAnalytics analytics s
      | _ => loadAnalyticsFailed s

/-- The method `reset` of the form `habit-form`. -/
def resetHabitForm (s : State) : State :=
  { s with dom := { s.dom with
      habitName := s.defaults.habitName
      habitDesc := s.defaults.habitDesc
      habitFrequency := s.defaults.habitFrequency
      motivationText := s.defaults.motivationText
      difficultyLevel := s.defaults.difficultyLevel } }

/-- The method `addHabit` up to its `await fetch` (script.js 194-218). -/
def addHabit (s : State) : State :=
  let name := trim s.dom.habitName
  if !truthy name then showError "Введите название привычки" s
  else
    let formData : HabitForm :=
      { name := name
        description := trim s.dom.habitDesc
        habit_type := "bad"
        frequency := s.dom.habitFrequency
        target_count := 1
        motivation_text := trim s.dom.motivationText
        difficulty_level := s.dom.difficultyLevel }
    fetch ⟨.POST, s.apiBase ++ "/habits/", .habit formData⟩ .addHabit s

/-- The `catch` block of `addHabit` (script.js 229-232). -/
def addHabitFailed (message : String) (s : State) : State :=
  showError ("Ошибка при добавлении привычки: " ++ message)
    (consoleError "Error adding habit:" s)

/-- The method `addHabit` from the moment its `fetch` settles (script.js 220-232).  The
call `this.showTab('habits')` is not awaited: it runs up to its own `await`, and
`loadHabits` is then called while that one is still in flight. -/
def addHabitResume (o : FetchOutcome) (s : State) : State :=
  match o with
  | .networkError message => addHabitFailed message s
  | .response r =>
    if r.ok then
      let s := showSuccess "Вредная привычка добавлена для отслеживания!" s
      let s := resetHabitForm s
      let s := showTab "habits" s
      loadHabits .nothing s
    else
      let errorText := r.text
      addHabitFailed (if truthy errorText then errorText else "Failed to add habit") s

/-- The method `deleteHabit` up to its `await fetch` (script.js 235-243); `confirmed` is
the answer given to the `confirm` dialog. -/
def deleteHabit (habitId : Int) (confirmed : Bool) (s : State) : State :=
  if !confirmed then s
  else fetch ⟨.DELETE, s.apiBase ++ "/habits/" ++ numToString habitId, .empty⟩ .deleteHabit s

/-- The `catch` block of `deleteHabit` (script.js 251-254). -/
def deleteHabitFailed (s : State) : State :=
  showError "Ошибка при удалении привычки" (consoleError "Error deleting habit:" s)

/-- The method `deleteHabit` from the moment its `fetch` settles (script.js 245-254). -/
def deleteHabitResume (o : FetchOutcome) (s : State) : State :=
  match o with
  | .networkError _ => deleteHabitFailed s
  | .response r =>
    if r.ok then
      let s := showSuccess "Привычка удалена из отслеживания!" s
      loadHabits .nothing s
    else deleteHabitFailed s

/-! ## The completion modal -/

/-- The method `openCompletionModal` (script.js 257-273); the focus it moves by timer is
not part of the model. -/
def openCompletionModal (habitId : Int) (s : State) : State :=
  { s with dom := { s.dom with
      modalHabitId := numToString habitId
      modalDisplay := "block"
      bodyOverflow := "hidden"
      htmlOverflow := "hidden"
      modalScrollTop := 0 } }

/-- The method `reset` of the form `completion-form`.  The field `modal-habit-id` keeps its
value when the page gives it no default to return to (a hidden input, or one outside the
form). -/
def resetCompletionForm (s : State) : State :=
  { s with dom := { s.dom with
      modalHabitId := s.defaults.modalHabitId.getD s.dom.modalHabitId
      completionDate := s.defaults.completionDate
      completedCheckbox := s.defaults.completedCheckbox
      completionNotes := s.defaults.completionNotes
      cravingLevel := s.defaults.cravingLevel
      resistanceLevel := s.defaults.resistanceLevel } }

/-- The method `closeModal` (script.js 275-291). -/
def closeModal (s : State) : State :=
  let s := { s with dom := { s.dom with modalDisplay := "none" } }
  let s := { s with dom := { s.dom with bodyOverflow := "auto", htmlOverflow := "auto" } }
  let s := resetCompletionForm s
  let s := setDefaultDate s
  { s with dom := { s.dom with
      cravingLevel := numToString 0
      resistanceLevel := numToString 0
      cravingValue := "0"
      resistanceValue := "0" } }

/-- Falsiness of a number that may be `NaN`: the test `!habitId`. -/
def falsyNum : Option Int → Bool
  | none => true
  | some n => n == 0

/-- The method `saveCompletion` up to its `await fetch` (script.js 293-322). -/
def saveCompletion (s : State) : State :=
  let habitId := parseInt s.dom.modalHabitId
  if falsyNum habitId then showError "Ошибка: не выбрана привычка" s
  else
    let formData : CompletionForm :=
      { habit_id := orZero habitId
        completion_date := s.dom.completionDate
        completed := s.dom.completedCheckbox
        notes := trim s.dom.completionNotes
        craving_level := parseInt s.dom.cravingLevel
        resistance_level := parseInt s.dom.resistanceLevel }
    if !truthy formData.completion_date then showError "Выберите дату" s
    else fetch ⟨.POST, s.apiBase ++ "/habits/complete/", .completion formData⟩ .saveCompletion s

/-- The `catch` block of `saveCompletion` (script.js 337-340). -/
def saveCompletionFailed (message : String) (s : State) : State :=
  showError ("Ошибка при сохранении данных: " ++ message)
    (consoleError "Error saving completion:" s)

/-- The method `saveCompletion` from the moment its `fetch` settles, up to the `await` of
`loadHabits` (script.js 324-340); the rest is `afterLoadHabits`. -/
def saveCompletionResume (o : FetchOutcome) (s : State) : State :=
  match o with
  | .networkError message => saveCompletionFailed message s
  | .response r =>
    if r.ok then
      let s := showSuccess "Данные о дне борьбы сохранены!" s
      let s := closeModal s
      loadHabits .saveCompletion s
    else
      let errorText := r.text
      saveCompletionFailed (if truthy errorText then errorText else "Failed to save completion") s

/-- The method `viewCompletions` up to its `await fetch` (script.js 500-502). -/
def viewCompletions (habitId : Int) (s : State) : State :=
  fetch ⟨.GET, s.apiBase ++ "/habits/" ++ numToString habitId ++ "/completions/", .empty⟩
    .viewCompletions s

/-- The `catch` block of `viewCompletions` (script.js 508-511). -/
def viewCompletionsFailed (s : State) : State :=
  showError "Ошибка загрузки статистики" (consoleError "Error loading completions:" s)

/-- The method `viewCompletions` from the moment its `fetch` settles (script.js 503-511). -/
def viewCompletionsResume (o : FetchOutcome) (s : State) : State :=
  match o with
  | .networkError _ => viewCompletionsFailed s
  | .response r =>
    if !r.ok then viewCompletionsFailed s
    else match r.json with
      | .completions completions => showCompletions completions s
      | _ => viewCompletionsFailed s

/-! ## Events -/

/-- The code resumed when a `fetch` settles. -/
def resume (k : Cont) (o : FetchOutcome) (s : State) : State :=
  match k with
  | .loadHabits after => loadHabitsResume after o s
  | .loadAnalytics => loadAnalyticsResume o s
  | .addHabit => addHabitResume o s
  | .deleteHabit => deleteHabitResume o s
  | .saveCompletion => saveCompletionResume o s
  | .viewCompletions => viewCompletionsResume o s

/-- The request at position `i` among those in flight settles with outcome `o`. -/
def fetchSettled (i : Nat) (o : FetchOutcome) (s : State) : State :=
  match s.pending[i]? with
  | none => s
  | some p => resume p.k o { s with pending := s.pending.eraseIdx i }

/-- Where a click lands: a navigation button (with its `data-tab`), the close control of
the modal, the modal element itself (its backdrop), or anything else. -/
inductive Target where
  | navBtn (dataTab : String)
  | close
  | modal
  | other
deriving DecidableEq, Repr

/-- What happens to the page: the events the listeners of `setupEventListeners` and
`setupRangeSliders` and the inline `onclick` handlers of the cards react to, and the
settling of a request. -/
inductive Event where
  | click (target : Target)
  | keydown (key : String)
  | submitHabitForm
  | submitCompletionForm
  | inputCraving (value : String)
  | inputResistance (value : String)
  | clickDelete (habitId : Int) (confirmed : Bool)
  | clickComplete (habitId : Int)
  | clickStatistics (habitId : Int)
  | settled (i : Nat) (o : FetchOutcome)
deriving DecidableEq, Repr

/-- The listeners of script.js 17-67 and the handlers written into the cards
(script.js 142, 159, 162). -/
def handle (s : State) : Event → State
  | .click (.navBtn tab) => showTab tab s
  | .click .close => closeModal s
  | .click .modal => closeModal s
  | .click .other => s
  | .keydown key => if key = "Escape" then closeModal s else s
  | .submitHabitForm => addHabit s
  | .submitCompletionForm => saveCompletion s
  | .inputCraving value =>
    { s with dom := { s.dom with cravingLevel := value, cravingValue := value } }
  | .inputResistance value =>
    { s with dom := { s.dom with resistanceLevel := value, resistanceValue := value } }
  | .clickDelete habitId confirmed => deleteHabit habitId confirmed s
  | .clickComplete habitId => openCompletionModal habitId s
  | .clickStatistics habitId => viewCompletions habitId s
  | .settled i o => fetchSettled i o s

/-- The state after a sequence of events. -/
def run (s : State) (events : List Event) : State :=
  events.foldl handle s

/-- The method `init` (script.js 9-15); the listeners it installs are `handle`. -/
def init (s : State) : State :=
  let s := showTab "habits" s
  let s := loadHabits .nothing s
  setDefaultDate s

/-- The constructor (script.js 2-7), on a page `dom` with form defaults `defaults`, on the
day `today`. -/
def BadHabitTracker.new (dom : Dom) (defaults : FormDefaults) (today : String) : State :=
  init
    { dom := dom
      defaults := defaults
      today := today
      apiBase := "http://localhost:8000"
      currentTab := "habits"
      chart := none
      liveCharts := []
      chartsCreated := 0
      requests := []
      pending := []
      console := []
      alerts := [] }

/-! ## Sample pages -/

/-- A page as the script finds it: empty forms, sliders in the middle, modal hidden. -/
def samplePage : Dom :=
  { habitName := ""
    habitDesc := ""
    habitFrequency := "daily"
    motivationText := ""
    difficultyLevel := "medium"
    modalHabitId := ""
    completionDate := ""
    completedCheckbox := false
    completionNotes := ""
    cravingLevel := "5"
    resistanceLevel := "5"
    cravingValue := "5"
    resistanceValue := "5"
    modalDisplay := "none"
    modalScrollTop := 0
    bodyOverflow := "auto"
    htmlOverflow := "auto"
    activeNav := none
    activeTab := none
    habitsList := ""
    statsGrid := ""
    hasCanvas := true
    canvasCleared := 0
    noDataTexts := []
    notifications := []
    notificationStyles := false }

/-- The defaults of the controls of `samplePage`. -/
def sampleDefaults : FormDefaults :=
  { habitName := ""
    habitDesc := ""
    habitFrequency := "daily"
    motivationText := ""
    difficultyLevel := "medium"
    modalHabitId := none
    completionDate := ""
    completedCheckbox := false
    completionNotes := ""
    cravingLevel := "5"
    resistanceLevel := "5" }

/-- A 200 answer carrying the given JSON. -/
def okJson (json : Payload) : FetchOutcome :=
  .response ⟨200, "", json⟩

/-- The controller just built on `samplePage`: the two loads `init` starts are in flight. -/
def sampleStart : State :=
  BadHabitTracker.new samplePage sampleDefaults "2024-01-01"

/-- The controller once both of the loads `init` starts have been answered with an empty
list. -/
def sampleIdle : State :=
  run sampleStart [.settled 0 (okJson (.habits [])), .settled 0 (okJson (.habits []))]

/-- The state `s` after the user typed `name` into the field `habit-name`. -/
def typeHabitName (name : String) (s : State) : State :=
  { s with dom := { s.dom with habitName := name } }

/-- The request `GET /habits/` of a controller in state `s`. -/
def getHabits (s : State) : Request :=
  ⟨.GET, s.apiBase ++ "/habits/", .empty⟩

/-- The request `GET /analytics/` of a controller in state `s`. -/
def getAnalytics (s : State) : Request :=
  ⟨.GET, s.apiBase ++ "/analytics/", .empty⟩

/-- The text `text` occurs in `message`. -/
def includesText (message text : String) : Prop :=
  text.data <:+: message.data

instance (message text : String) : Decidable (includesText message text) := by
  unfold includesText
  infer_instance

/-- The modal is hidden, the page scrolls, and both sliders and their labels read 0. -/
def ModalClosed (d : Dom) : Prop :=
  d.modalDisplay = "none" ∧ d.bodyOverflow = "auto" ∧ d.htmlOverflow = "auto" ∧
  d.cravingLevel = "0" ∧ d.resistanceLevel = "0" ∧
  d.cravingValue = "0" ∧ d.resistanceValue = "0"

/-- A `fetch` that failed for the script: rejected, or answered outside 200-299. -/
def FetchOutcome.failed : FetchOutcome → Bool
  | .networkError _ => true
  | .response r => !r.ok

/-- The request `DELETE /habits/{id}` of a controller in state `s`. -/
def deleteRequest (s : State) (habitId : Int) : Request :=
  ⟨.DELETE, s.apiBase ++ "/habits/" ++ numToString habitId, .empty⟩

/-- The number of `DELETE` requests among `requests`. -/
def countDeletes (requests : List Request) : Nat :=
  (requests.filter fun q => q.method = .DELETE).length

/-- An analytics answer with one habit. -/
def sampleAnalytics : Analytics :=
  { total_stats := some [("total_habits", 1), ("daily_habits", 1), ("weekly_habits", 0),
      ("monthly_habits", 0)]
    habit_stats := some [⟨"Smoking", some 40, some 12⟩] }

/-- The state `s` after the user cleared or set the field `completion-date`. -/
def typeCompletionDate (date : String) (s : State) : State :=
  { s with dom := { s.dom with completionDate := date } }

/-- The completion form submitted for habit 7 while the analytics tab is the current one:
the `POST /habits/complete/` is the one request in flight. -/
def sampleSaving : State :=
  run sampleIdle [.clickComplete 7, .submitCompletionForm, .click (.navBtn "analytics"),
    .settled 1 (okJson (.analytics sampleAnalytics))]

/-- The request `sampleSaving` has in flight, and `sampleSubmitted` as well. -/
def sampleSavingRequest : Request :=
  ⟨.POST, "http://localhost:8000/habits/complete/",
    .completion ⟨7, "2024-01-01", false, "", some 5, some 5⟩⟩

/-- The characters `l` that follow an ampersand make it the start of one of the four
character references `escapeHtml` writes. -/
def isEntityTail (l : List Char) : Bool :=
  ['a', 'm', 'p', ';'].isPrefixOf l || ['l', 't', ';'].isPrefixOf l ||
  ['g', 't', ';'].isPrefixOf l || ['n', 'b', 's', 'p', ';'].isPrefixOf l

/-- The number of ampersands in a text that do not start such a reference. -/
def bareAmp : List Char → Nat
  | [] => 0
  | c :: l => (if c = '&' ∧ isEntityTail l = false then 1 else 0) + bareAmp l

/-- The habit `habit` with the content of its three free-text properties taken out: the
name emptied, the description and the motivation replaced by a dash where they are
shown.  What `renderHabits` writes for it is the markup that comes from the template and
from the other properties. -/
def redact (habit : Habit) : Habit :=
  { habit with
    name := ""
    description := if truthyOpt habit.description then some "-" else none
    motivation_text := if truthyOpt habit.motivation_text then some "-" else none }

/-- A list of one habit whose name, description and motivation carry markup. -/
def sampleHabits : List Habit :=
  [⟨1, "<b>Tom & Jerry</b>", some "a > b", "daily", "hard", some "<script>alert(1)</script>"⟩]

/-- The chart `this.chart` refers to is one the canvas shows. -/
def chartLive (s : State) : Bool :=
  match s.chart with
  | some c => s.liveCharts.contains c
  | none => false

/-- The charts are those of the controller: a chart the canvas shows is the one
`this.chart` refers to, and that one was built before the charts still to come. -/
def ChartsTracked (s : State) : Prop :=
  (∀ c ∈ s.liveCharts, s.chart = some c) ∧ (∀ c, s.chart = some c → c.id < s.chartsCreated)

/-- An analytics answer of a service that tracks no habit: totals, all zero, and no habit. -/
def sampleNoStats : Analytics :=
  { total_stats := some [("total_habits", 0), ("daily_habits", 0), ("weekly_habits", 0),
      ("monthly_habits", 0)]
    habit_stats := some [] }

/-- The analytics tab shown with one habit, then clicked again: a chart is drawn and a
`GET /analytics/` is in flight. -/
def sampleReloading : State :=
  run sampleIdle [.click (.navBtn "analytics"), .settled 0 (okJson (.analytics sampleAnalytics)),
    .click (.navBtn "analytics")]

/-! ## Several controllers on one page -/


/-- The fields of one controller instance (script.js 3-5). -/
structure Controller where
  apiBase : String
  currentTab : String
  chart : Option ChartInst
deriving DecidableEq, Repr

/-- What the controller instances of a page share: the document, the chart library, the
network, the console and the dialogs. -/
structure World where
  dom : Dom
  defaults : FormDefaults
  today : String
  liveCharts : List ChartInst
  chartsCreated : Nat
  requests : List Request
  pending : List Pending
  console : List String
  alerts : List String
deriving DecidableEq, Repr

/-- The shared part of a state. -/
def State.world (s : State) : World :=
  { dom := s.dom
    defaults := s.defaults
    today := s.today
    liveCharts := s.liveCharts
    chartsCreated := s.chartsCreated
    requests := s.requests
    pending := s.pending
    console := s.console
    alerts := s.alerts }

/-- The fields of the controller of a state. -/
def State.controller (s : State) : Controller :=
  { apiBase := s.apiBase, currentTab := s.currentTab, chart := s.chart }

/-- The state a method of controller `c` runs in. -/
def World.focus (w : World) (c : Controller) : State :=
  { dom := w.dom
    defaults := w.defaults
    today := w.today
    apiBase := c.apiBase
    currentTab := c.currentTab
    chart := c.chart
    liveCharts := w.liveCharts
    chartsCreated := w.chartsCreated
    requests := w.requests
    pending := w.pending
    console := w.console
    alerts := w.alerts }

/-- The document once the script has run: the controllers built so far, in order (the
variable `window.tracker` is the last one), the controller each request in flight belongs
to, the `DOMContentLoaded` listeners the script has registered that have not run, and
whether that event has been dispatched. -/
structure Page where
  world : World
  controllers : List Controller
  owners : List Nat
  loadedListeners : Nat
  domContentLoaded : Bool
deriving DecidableEq, Repr

/-- Code of controller `k` runs on the page; the requests it issues are its own. -/
def Page.call (k : Nat) (f : State → State) (p : Page) : Page :=
  match p.controllers[k]? with
  | none => p
  | some c =>
    let s := f (p.world.focus c)
    { p with
      world := s.world
      controllers := p.controllers.set k s.controller
      owners := p.owners ++ List.replicate (s.pending.length - p.world.pending.length) k }

/-- The request at position `i` settles: the controller that issued it resumes. -/
def Page.settle (i : Nat) (o : FetchOutcome) (p : Page) : Page :=
  match p.owners[i]? with
  | none => p
  | some k =>
    match p.controllers[k]? with
    | none => p
    | some c =>
      let s := fetchSettled i o (p.world.focus c)
      { p with
        world := s.world
        controllers := p.controllers.set k s.controller
        owners := p.owners.eraseIdx i ++
          List.replicate (s.pending.length + 1 - p.world.pending.length) k }

/-- The statement `window.tracker = new BadHabitTracker()` (script.js 592, 598, 601): the
constructor (script.js 2-7) runs on the page as it is. -/
def Page.construct (p : Page) : Page :=
  let s := init (p.world.focus ⟨"http://localhost:8000", "habits", none⟩)
  { p with
    world := s.world
    controllers := p.controllers ++ [s.controller]
    owners := p.owners ++
      List.replicate (s.pending.length - p.world.pending.length) p.controllers.length }

/-- An event on a page with any number of controllers.  Each controller has registered its
own listeners (script.js 17-67), which run in the order the controllers were built; the
handlers written into the cards call `tracker`, the last controller built. -/
def Page.dispatch (p : Page) : Event → Page
  | .settled i o => p.settle i o
  | .clickDelete habitId confirmed =>
    p.call (p.controllers.length - 1) (deleteHabit habitId confirmed)
  | .clickComplete habitId => p.call (p.controllers.length - 1) (openCompletionModal habitId)
  | .clickStatistics habitId => p.call (p.controllers.length - 1) (viewCompletions habitId)
  | e => (List.range p.controllers.length).foldl (fun p k => p.call k fun s => handle s e) p

/-- The script from its line 590 on, run while `document.readyState` is `readyState`;
`fired` tells whether `DOMContentLoaded` has been dispatched already. -/
def loadScript (readyState : String) (fired : Bool) (dom : Dom) (defaults : FormDefaults)
    (today : String) : Page :=
  let p : Page :=
    { world :=
        { dom := dom, defaults := defaults, today := today, liveCharts := [],
          chartsCreated := 0, requests := [], pending := [], console := [], alerts := [] }
      controllers := []
      owners := []
      loadedListeners := 0
      domContentLoaded := fired }
  let p := { p with loadedListeners := p.loadedListeners + 1 }
  if readyState = "loading" then { p with loadedListeners := p.loadedListeners + 1 }
  else p.construct

/-- The event `DOMContentLoaded`, dispatched once: every listener registered for it runs. -/
def Page.fireDomContentLoaded (p : Page) : Page :=
  if p.domContentLoaded then p
  else
    let q := (List.range p.loadedListeners).foldl (fun q _ => q.construct) p
    { q with loadedListeners := 0, domContentLoaded := true }

/-- The page after the user typed `name` into the field `habit-name`. -/
def Page.typeHabitName (name : String) (p : Page) : Page :=
  { p with world := { p.world with dom := { p.world.dom with habitName := name } } }

/-- The script loaded by a page still `loading`, then `DOMContentLoaded` dispatched. -/
def sampleLoaded : Page :=
  (loadScript "loading" false samplePage sampleDefaults "2024-01-01").fireDomContentLoaded

/-- What happens to a page: `DOMContentLoaded` is dispatched, or an event of the script. -/
inductive PageEvent where
  | domContentLoaded
  | event (e : Event)
deriving DecidableEq, Repr

/-- One step of a page. -/
def Page.step (p : Page) : PageEvent → Page
  | .domContentLoaded => p.fireDomContentLoaded
  | .event e => p.dispatch e

/-- A page after a sequence of steps. -/
def Page.run (p : Page) (steps : List PageEvent) : Page :=
  steps.foldl Page.step p

/-- The chart `this.chart` refers to was built by an earlier `new Chart`. -/
def ChartNumbered (s : State) : Prop :=
  ∀ c, s.chart = some c → c.id < s.chartsCreated

/-- The chart each controller of the page refers to was built by an earlier `new Chart`. -/
def Page.Numbered (p : Page) : Prop :=
  ∀ c ∈ p.controllers, ∀ ch, c.chart = some ch → ch.id < p.world.chartsCreated

/-- The script loaded by a page still `loading`, `DOMContentLoaded` dispatched, the
analytics tab clicked, and the reload of the first controller answered with one habit:
its chart is on the canvas, and the reload of the second controller is in flight. -/
def sampleTwoControllers : Page :=
  (loadScript "loading" false samplePage sampleDefaults "2024-01-01").run
    [.domContentLoaded, .event (.click (.navBtn "analytics")),
      .event (.settled 4 (okJson (.analytics sampleAnalytics)))]

/-- The completion form submitted for habit 7 on the habits tab: the
`POST /habits/complete/` is the one request in flight. -/
def sampleSubmitted : State :=
  run sampleIdle [.clickComplete 7, .submitCompletionForm]

/-- After `sampleSubmitted`: the `POST` answered with 200, then the analytics tab clicked
while the reload of the habits that `saveCompletion` awaits is still in flight. -/
def sampleSwitched : State :=
  run sampleSubmitted [.settled 0 (okJson .malformed), .click (.navBtn "analytics")]

/-! ## Theorems -/

/-- Trimming a string of whitespace leaves the empty string. -/
theorem trim_blank (t : String) (h : ∀ c ∈ t.data, isJsWhitespace c = true) :
    trim t = "" := by
  unfold trim
  have h0 : t.data.dropWhile isJsWhitespace = [] := by
    simpa [List.dropWhile_eq_nil_iff] using h
  rw [h0]
  rfl

/-- The settling of a request in flight runs the code waiting for it. -/
theorem handle_settled (s : State) (i : Nat) (o : FetchOutcome) (p : Pending)
    (hp : s.pending[i]? = some p) :
    handle s (.settled i o) = resume p.k o { s with pending := s.pending.eraseIdx i } := by
  simp [handle, fetchSettled, hp]

/-! ### What the rendering methods leave alone -/

/-- The method `showNotification` issues no request and keeps the current tab. -/
@[simp]
theorem showNotification_frame (message type : String) (s : State) :
    (showNotification message type s).requests = s.requests ∧
    (showNotification message type s).pending = s.pending ∧
    (showNotification message type s).currentTab = s.currentTab ∧
    (showNotification message type s).apiBase = s.apiBase := by
  simp [showNotification]

/-- The method `showSuccess` issues no request and keeps the current tab. -/
@[simp]
theorem showSuccess_frame (message : String) (s : State) :
    (showSuccess message s).requests = s.requests ∧
    (showSuccess message s).pending = s.pending ∧
    (showSuccess message s).currentTab = s.currentTab ∧
    (showSuccess message s).apiBase = s.apiBase := by
  simp [showSuccess]

/-- The method `showError` issues no request and keeps the current tab. -/
@[simp]
theorem showError_frame (message : String) (s : State) :
    (showError message s).requests = s.requests ∧
    (showError message s).pending = s.pending ∧
    (showError message s).currentTab = s.currentTab ∧
    (showError message s).apiBase = s.apiBase := by
  simp [showError]

/-- The method `consoleError` issues no request and keeps the current tab. -/
@[simp]
theorem consoleError_frame (label : String) (s : State) :
    (consoleError label s).requests = s.requests ∧
    (consoleError label s).pending = s.pending ∧
    (consoleError label s).currentTab = s.currentTab ∧
    (consoleError label s).apiBase = s.apiBase := by
  simp [consoleError]

/-- The method `showLoading` issues no request and keeps the current tab. -/
@[simp]
theorem showLoading_frame (containerId message : String) (s : State) :
    (showLoading containerId message s).requests = s.requests ∧
    (showLoading containerId message s).pending = s.pending ∧
    (showLoading containerId message s).currentTab = s.currentTab ∧
    (showLoading containerId message s).apiBase = s.apiBase := by
  simp [showLoading]

/-- The method `renderHabits` issues no request and keeps the current tab. -/
@[simp]
theorem renderHabits_frame (habits : List Habit) (s : State) :
    (renderHabits habits s).requests = s.requests ∧
    (renderHabits habits s).pending = s.pending ∧
    (renderHabits habits s).currentTab = s.currentTab ∧
    (renderHabits habits s).apiBase = s.apiBase := by
  unfold renderHabits; split <;> simp

/-- The method `setDefaultDate` issues no request and keeps the current tab. -/
@[simp]
theorem setDefaultDate_frame (s : State) :
    (setDefaultDate s).requests = s.requests ∧
    (setDefaultDate s).pending = s.pending ∧
    (setDefaultDate s).currentTab = s.currentTab ∧
    (setDefaultDate s).apiBase = s.apiBase := by
  simp [setDefaultDate]

/-- The method `resetCompletionForm` issues no request and keeps the current tab. -/
@[simp]
theorem resetCompletionForm_frame (s : State) :
    (resetCompletionForm s).requests = s.requests ∧
    (resetCompletionForm s).pending = s.pending ∧
    (resetCompletionForm s).currentTab = s.currentTab ∧
    (resetCompletionForm s).apiBase = s.apiBase := by
  simp [resetCompletionForm]

/-- The method `resetHabitForm` issues no request and keeps the current tab. -/
@[simp]
theorem resetHabitForm_frame (s : State) :
    (resetHabitForm s).requests = s.requests ∧
    (resetHabitForm s).pending = s.pending ∧
    (resetHabitForm s).currentTab = s.currentTab ∧
    (resetHabitForm s).apiBase = s.apiBase := by
  simp [resetHabitForm]

/-- The method `closeModal` issues no request and keeps the current tab. -/
@[simp]
theorem closeModal_frame (s : State) :
    (closeModal s).requests = s.requests ∧
    (closeModal s).pending = s.pending ∧
    (closeModal s).currentTab = s.currentTab ∧
    (closeModal s).apiBase = s.apiBase := by
  simp [closeModal]

/-- The method `loadHabitsFailed` issues no request and keeps the current tab. -/
@[simp]
theorem loadHabitsFailed_frame (s : State) :
    (loadHabitsFailed s).requests = s.requests ∧
    (loadHabitsFailed s).pending = s.pending ∧
    (loadHabitsFailed s).currentTab = s.currentTab ∧
    (loadHabitsFailed s).apiBase = s.apiBase := by
  simp [loadHabitsFailed]

/-- The method `loadHabits` issues one `GET /habits/` and waits for it. -/
@[simp]
theorem loadHabits_frame (after : AfterLoadHabits) (s : State) :
    (loadHabits after s).requests = s.requests ++ [getHabits s] ∧
    (loadHabits after s).pending = s.pending ++ [⟨getHabits s, .loadHabits after⟩] ∧
    (loadHabits after s).currentTab = s.currentTab ∧
    (loadHabits after s).apiBase = s.apiBase := by
  simp [loadHabits, fetch, getHabits]

/-- The method `loadAnalytics` issues one `GET /analytics/` and waits for it. -/
@[simp]
theorem loadAnalytics_frame (s : State) :
    (loadAnalytics s).requests = s.requests ++ [getAnalytics s] ∧
    (loadAnalytics s).pending = s.pending ++ [⟨getAnalytics s, .loadAnalytics⟩] ∧
    (loadAnalytics s).currentTab = s.currentTab ∧
    (loadAnalytics s).apiBase = s.apiBase := by
  simp [loadAnalytics, fetch, getAnalytics]

/-- The requests `afterLoadHabits` adds: the analytics reload of `saveCompletion`. -/
theorem afterLoadHabits_requests (after : AfterLoadHabits) (s : State) :
    (afterLoadHabits after s).requests = s.requests ++
      (if after = .saveCompletion ∧ s.currentTab = "analytics" then [getAnalytics s] else []) := by
  cases after with
  | nothing => simp [afterLoadHabits]
  | saveCompletion =>
    by_cases ht : s.currentTab = "analytics" <;> simp [afterLoadHabits, ht]

/-- The part of `loadHabits` that runs when its request settles issues no request. -/
theorem loadHabitsResume_eq (after : AfterLoadHabits) (o : FetchOutcome) (s : State) :
    ∃ t : State, loadHabitsResume after o s = afterLoadHabits after t ∧
      t.requests = s.requests ∧ t.pending = s.pending ∧ t.currentTab = s.currentTab ∧
      t.apiBase = s.apiBase := by
  unfold loadHabitsResume
  cases o with
  | networkError m => exact ⟨_, rfl, by simp⟩
  | response r =>
    by_cases hok : r.ok = true
    · cases hj : r.json <;> exact ⟨_, by simp only [hok, hj]; rfl, by simp⟩
    · exact ⟨_, by simp only [hok]; rfl, by simp⟩

/-- The requests issued when a `GET /habits/` settles: none, but for the analytics reload
of `saveCompletion`. -/
theorem loadHabitsResume_requests (after : AfterLoadHabits) (o : FetchOutcome) (s : State) :
    (loadHabitsResume after o s).requests = s.requests ++
      (if after = .saveCompletion ∧ s.currentTab = "analytics" then [getAnalytics s] else []) := by
  obtain ⟨t, ht, h1, _, h3, h4⟩ := loadHabitsResume_eq after o s
  rw [ht, afterLoadHabits_requests, h1, h3]
  simp [getAnalytics, h4]

/-- C1: when the habit name field is empty or holds only whitespace, submitting the habit
form issues no request (none is recorded, none is in flight) and shows exactly one
notification, the error "Введите название привычки". -/
theorem addHabit_blank_name_rejected (s : State)
    (h : ∀ c ∈ s.dom.habitName.data, isJsWhitespace c = true) :
    (handle s .submitHabitForm).requests = s.requests ∧
    (handle s .submitHabitForm).pending = s.pending ∧
    (handle s .submitHabitForm).dom.notifications =
      s.dom.notifications ++ [⟨"Введите название привычки", "error"⟩] := by
  have ht : trim s.dom.habitName = "" := trim_blank _ h
  simp [handle, addHabit, ht, truthy, showError, showNotification]

/-- Witness of C1 on a name made of a space, a tab and a no-break space. -/
theorem addHabit_blank_name_rejected_witness :
    (handle (typeHabitName " \t " sampleIdle) .submitHabitForm).requests
      = (typeHabitName " \t " sampleIdle).requests ∧
    (handle (typeHabitName " \t " sampleIdle) .submitHabitForm).pending
      = (typeHabitName " \t " sampleIdle).pending ∧
    (handle (typeHabitName " \t " sampleIdle) .submitHabitForm).dom.notifications =
      (typeHabitName " \t " sampleIdle).dom.notifications
        ++ [⟨"Введите название привычки", "error"⟩] :=
  addHabit_blank_name_rejected (typeHabitName " \t " sampleIdle) (by decide)

/-- After a successful deletion the list of habits is fetched once. -/
theorem deleteHabit_success_fetches_once (s : State) (i : Nat) (req : Request) (r : Response)
    (hp : s.pending[i]? = some ⟨req, .deleteHabit⟩) (hok : r.ok = true) :
    (handle s (.settled i (.response r))).requests = s.requests ++ [getHabits s] ∧
    (handle s (.settled i (.response r))).pending =
      s.pending.eraseIdx i ++ [⟨getHabits s, .loadHabits .nothing⟩] := by
  rw [handle_settled s i _ _ hp]
  simp [resume, deleteHabitResume, hok, getHabits]

/-- What `saveCompletion` does to the requests when its `POST` is answered with success. -/
theorem saveCompletionResume_ok_frame (r : Response) (hok : r.ok = true) (s : State) :
    (saveCompletionResume (.response r) s).requests = s.requests ++ [getHabits s] ∧
    (saveCompletionResume (.response r) s).pending =
      s.pending ++ [⟨getHabits s, .loadHabits .saveCompletion⟩] ∧
    (saveCompletionResume (.response r) s).currentTab = s.currentTab ∧
    (saveCompletionResume (.response r) s).apiBase = s.apiBase := by
  simp [saveCompletionResume, hok, getHabits]

/-- After a successful completion the list of habits is fetched once, and when that load
ends the analytics are fetched once if the analytics tab is the current one, and not at
all otherwise. -/
theorem saveCompletion_success_fetches_once (s : State) (i : Nat) (req : Request)
    (r : Response) (o : FetchOutcome)
    (hp : s.pending[i]? = some ⟨req, .saveCompletion⟩) (hok : r.ok = true) :
    (handle s (.settled i (.response r))).requests = s.requests ++ [getHabits s] ∧
    (handle (handle s (.settled i (.response r)))
        (.settled (s.pending.eraseIdx i).length o)).requests =
      s.requests ++ [getHabits s] ++
        (if s.currentTab = "analytics" then [getAnalytics s] else []) := by
  rw [handle_settled s i _ _ hp]
  simp only [resume]
  obtain ⟨h2, h1, h3, h4⟩ :=
    saveCompletionResume_ok_frame r hok { s with pending := s.pending.eraseIdx i }
  generalize saveCompletionResume (.response r) { s with pending := s.pending.eraseIdx i } = s1
    at h1 h2 h3 h4 ⊢
  simp only [getHabits] at h1 h2 h3 h4
  refine ⟨by simpa [getHabits] using h2, ?_⟩
  rw [handle_settled s1 (s.pending.eraseIdx i).length o
      ⟨getHabits s, .loadHabits .saveCompletion⟩ (by rw [h1]; simp [getHabits])]
  simp only [resume]
  rw [loadHabitsResume_requests]
  simp [h2, h3, h4, getAnalytics, getHabits]

/-- After a successful creation the list of habits is fetched twice: once by the
`showTab('habits')` that is not awaited, once by the `loadHabits` that follows it. -/
theorem addHabit_success_fetches_twice (s : State) (i : Nat) (req : Request) (r : Response)
    (hp : s.pending[i]? = some ⟨req, .addHabit⟩) (hok : r.ok = true) :
    (handle s (.settled i (.response r))).requests =
      s.requests ++ [getHabits s, getHabits s] ∧
    (handle s (.settled i (.response r))).pending =
      s.pending.eraseIdx i ++
        [⟨getHabits s, .loadHabits .nothing⟩, ⟨getHabits s, .loadHabits .nothing⟩] := by
  rw [handle_settled s i _ _ hp]
  simp [resume, addHabitResume, hok, getHabits, showTab]

/-- C2, at the input where it fails: the user submits the habit form with the name "x" and
the server answers the `POST /habits/` with 201.  The requests issued after the answer
are two `GET /habits/`, both in flight at once, where the claim has exactly one. -/
theorem addHabit_created_two_reloads :
    (run (typeHabitName "x" sampleIdle)
        [.submitHabitForm, .settled 0 (.response ⟨201, "", .malformed⟩)]).requests =
      (run (typeHabitName "x" sampleIdle) [.submitHabitForm]).requests ++
        [⟨.GET, "http://localhost:8000/habits/", .empty⟩,
         ⟨.GET, "http://localhost:8000/habits/", .empty⟩] ∧
    (run (typeHabitName "x" sampleIdle)
        [.submitHabitForm, .settled 0 (.response ⟨201, "", .malformed⟩)]).pending.length = 2 := by
  decide

/-! ### Escaping in the list of habits -/

/-- The characters of an escaped text: each character of the text, serialised. -/
theorem escapeHtml_data (text : String) :
    (escapeHtml text).data = text.data.flatMap escapeChar := rfl

/-- A character is serialised as one of four references, or as itself when it is none of
`&`, `<`, `>`. -/
theorem escapeChar_cases (c : Char) :
    escapeChar c = ['&', 'a', 'm', 'p', ';'] ∨ escapeChar c = ['&', 'l', 't', ';'] ∨
    escapeChar c = ['&', 'g', 't', ';'] ∨ escapeChar c = ['&', 'n', 'b', 's', 'p', ';'] ∨
    (escapeChar c = [c] ∧ c ≠ '&' ∧ c ≠ '<' ∧ c ≠ '>') := by
  unfold escapeChar
  split_ifs <;> simp_all

/-- Serialised characters contain neither `<` nor `>`. -/
theorem count_lt_escape (l : List Char) :
    (l.flatMap escapeChar).count '<' = 0 ∧ (l.flatMap escapeChar).count '>' = 0 := by
  induction l with
  | nil => simp
  | cons c l ih =>
    rw [List.flatMap_cons, List.count_append, List.count_append, ih.1, ih.2]
    rcases escapeChar_cases c with h | h | h | h | ⟨h, h1, h2, h3⟩ <;> rw [h]
    · decide
    · decide
    · decide
    · decide
    · simp [List.count_cons, h2, h3]

/-- Whether an ampersand starts a reference is decided by the five characters after it. -/
theorem isEntityTail_append (l r : List Char) (h : 5 ≤ l.length) :
    isEntityTail (l ++ r) = isEntityTail l := by
  match l, h with
  | a :: b :: c :: d :: e :: l, _ => simp [isEntityTail, List.isPrefixOf]

/-- Serialised characters contain no bare ampersand, whatever follows them. -/
theorem bareAmp_escape (l r : List Char) : bareAmp (l.flatMap escapeChar ++ r) = bareAmp r := by
  induction l with
  | nil => simp
  | cons c l ih =>
    rw [List.flatMap_cons, List.append_assoc]
    rcases escapeChar_cases c with h | h | h | h | ⟨h, h1, h2, h3⟩ <;> rw [h]
    · simp [bareAmp, isEntityTail, List.isPrefixOf, ih]
    · simp [bareAmp, isEntityTail, List.isPrefixOf, ih]
    · simp [bareAmp, isEntityTail, List.isPrefixOf, ih]
    · simp [bareAmp, isEntityTail, List.isPrefixOf, ih]
    · simp [bareAmp, h1, ih]

/-- A text without ampersand adds no bare ampersand to what follows it. -/
theorem bareAmp_noAmp (a r : List Char) (h : '&' ∉ a) : bareAmp (a ++ r) = bareAmp r := by
  induction a with
  | nil => rfl
  | cons c a ih =>
    have hc : c ≠ '&' := fun e => h (by simp [e])
    have ha : '&' ∉ a := fun e => h (by simp [e])
    simp [bareAmp, hc, ih ha]

/-- Bare ampersands are counted separately on both sides of five characters without
ampersand. -/
theorem bareAmp_raw (x k r : List Char) (hk : 5 ≤ k.length) (h : '&' ∉ k) :
    bareAmp (x ++ (k ++ r)) = bareAmp (x ++ k) + bareAmp r := by
  induction x with
  | nil =>
    have h0 := bareAmp_noAmp k [] h
    simp only [List.append_nil] at h0
    simp [bareAmp_noAmp k r h, h0, bareAmp]
  | cons c x ih =>
    have e1 : isEntityTail (x ++ (k ++ r)) = isEntityTail (x ++ k) := by
      rw [← List.append_assoc, isEntityTail_append _ _ (by simp; omega)]
    have e2 : bareAmp (c :: (x ++ (k ++ r))) =
        (if c = '&' ∧ isEntityTail (x ++ (k ++ r)) = false then 1 else 0)
          + bareAmp (x ++ (k ++ r)) := rfl
    have e3 : bareAmp (c :: (x ++ k)) =
        (if c = '&' ∧ isEntityTail (x ++ k) = false then 1 else 0) + bareAmp (x ++ k) := rfl
    rw [List.cons_append, List.cons_append, e2, e3, e1, ih]
    omega


/-- The result of `escapeHtml` contains neither `<` nor `>`. -/
theorem count_escapeHtml (text : String) :
    (escapeHtml text).data.count '<' = 0 ∧ (escapeHtml text).data.count '>' = 0 :=
  count_lt_escape text.data

/-- The result of `escapeHtml` adds no bare ampersand to what follows it. -/
theorem bareAmp_escapeHtml (text : String) (r : List Char) :
    bareAmp ((escapeHtml text).data ++ r) = bareAmp r :=
  bareAmp_escape text.data r

/-- A dash is truthy, an absent property is not. -/
theorem truthyOpt_dash : truthyOpt (some "-") = true ∧ truthyOpt none = false := by
  decide

/-- The card of a habit has as many `<` and `>` as the card of the habit redacted. -/
theorem habitCard_count (c : Char) (hc : c = '<' ∨ c = '>') (habit : Habit) :
    (habitCard habit).data.count c = (habitCard (redact habit)).data.count c := by
  have e1 : ∀ text, (escapeHtml text).data.count c = 0 := by
    intro text
    rcases hc with h | h <;> rw [h]
    · exact (count_escapeHtml text).1
    · exact (count_escapeHtml text).2
  have e2 : "Без описания".data.count c = 0 := by
    rcases hc with h | h <;> rw [h] <;> decide
  by_cases hd : truthyOpt habit.description = true <;>
  by_cases hm : truthyOpt habit.motivation_text = true <;>
  simp only [habitCard, redact, truthyOpt_dash, hd, hm, if_true, if_false, String.data_append,
    List.count_append, e1, e2, Bool.false_eq_true]

/-- A text without ampersand has no bare ampersand. -/
theorem bareAmp_plain (a : List Char) (h : '&' ∉ a) : bareAmp a = 0 := by
  have h0 := bareAmp_noAmp a [] h
  simpa [bareAmp] using h0

/-- A template fragment without ampersand adds no bare ampersand. -/
theorem bareAmp_template (a r : String) (h : '&' ∉ a.data) :
    bareAmp (a ++ r).data = bareAmp r.data :=
  bareAmp_noAmp a.data r.data h

/-- An escaped value adds no bare ampersand. -/
theorem bareAmp_escaped (text r : String) :
    bareAmp (escapeHtml text ++ r).data = bareAmp r.data :=
  bareAmp_escape text.data r.data

/-- A value inserted as it is, followed by a template fragment, is counted with that
fragment. -/
theorem bareAmp_inserted (x k r : String) (hk : 5 ≤ k.data.length) (h : '&' ∉ k.data) :
    bareAmp (x ++ (k ++ r)).data = bareAmp (x ++ k).data + bareAmp r.data :=
  bareAmp_raw x.data k.data r.data hk h

set_option maxRecDepth 8000 in
/-- The card of a habit, before any text, has the bare ampersands of the card of the habit
redacted. -/
theorem bareAmp_habitCard (habit : Habit) (r : String) :
    bareAmp (habitCard habit ++ r).data =
      bareAmp (habitCard (redact habit)).data + bareAmp r.data := by
  by_cases hd : truthyOpt habit.description = true <;>
  by_cases hm : truthyOpt habit.motivation_text = true <;>
  simp only [habitCard, redact, truthyOpt_dash, hd, hm, if_true, if_false,
    String.append_assoc, String.empty_append, Bool.false_eq_true] <;>
  simp (disch := decide) only [bareAmp_template, bareAmp_inserted, bareAmp_escaped, bareAmp_plain,
    Nat.zero_add, Nat.add_assoc]

/-- Joining strings: the first, then the others joined. -/
theorem join_cons (a : String) (l : List String) :
    String.join (a :: l) = a ++ String.join l := by
  rw [String.join_eq, String.join_eq]
  rfl

/-- Joining no string gives the empty string. -/
theorem join_nil : String.join [] = "" := rfl

/-- Redacting twice is redacting once. -/
theorem redact_redact (habit : Habit) : redact (redact habit) = redact habit := by
  by_cases hd : truthyOpt habit.description = true <;>
  by_cases hm : truthyOpt habit.motivation_text = true <;>
  simp [redact, hd, hm, truthyOpt_dash]

/-- The cards of a list have as many `<` and `>` as the cards of the list redacted. -/
theorem cards_count (c : Char) (hc : c = '<' ∨ c = '>') (habits : List Habit) :
    (String.join (habits.map habitCard)).data.count c =
      (String.join ((habits.map redact).map habitCard)).data.count c := by
  induction habits with
  | nil => rfl
  | cons habit habits ih =>
    simp only [List.map_cons, join_cons, String.data_append, List.count_append, ih,
      habitCard_count c hc habit]

/-- The cards of a list have as many bare ampersands as the cards of the list redacted. -/
theorem cards_bareAmp (habits : List Habit) :
    bareAmp (String.join (habits.map habitCard)).data =
      bareAmp (String.join ((habits.map redact).map habitCard)).data := by
  induction habits with
  | nil => rfl
  | cons habit habits ih =>
    simp only [List.map_cons, join_cons]
    rw [bareAmp_habitCard, bareAmp_habitCard (redact habit), redact_redact, ih]

/-- What occurs in a text occurs in that text followed by another. -/
theorem infix_append_left {a x y : List Char} (h : a <:+: x) : a <:+: x ++ y :=
  h.trans (List.prefix_append x y).isInfix

/-- What occurs in a text occurs in that text preceded by another. -/
theorem infix_append_right {a x y : List Char} (h : a <:+: y) : a <:+: x ++ y :=
  h.trans (List.suffix_append x y).isInfix

/-- The card of a habit includes its escaped name, and its escaped description and
motivation when they are shown. -/
theorem habitCard_includes (habit : Habit) :
    includesText (habitCard habit) (escapeHtml habit.name) ∧
    (truthyOpt habit.description = true →
      includesText (habitCard habit) (escapeHtml (habit.description.getD ""))) ∧
    (truthyOpt habit.motivation_text = true →
      includesText (habitCard habit) (escapeHtml (habit.motivation_text.getD ""))) := by
  unfold includesText
  refine ⟨?_, ?_, ?_⟩
  · simp only [habitCard, String.data_append, List.append_assoc]
    repeat (first | exact infix_append_left List.infix_rfl | apply infix_append_right)
  · intro hd
    simp only [habitCard, String.data_append, hd, if_true, List.append_assoc]
    repeat (first | exact infix_append_left List.infix_rfl | apply infix_append_right)
  · intro hm
    simp only [habitCard, String.data_append, hm, if_true, List.append_assoc]
    repeat (first | exact infix_append_left List.infix_rfl | apply infix_append_right)

/-- What the card of a habit of the list includes, the cards of the list include. -/
theorem cards_include (habits : List Habit) (habit : Habit) (h : habit ∈ habits)
    (text : String) (ht : includesText (habitCard habit) text) :
    includesText (String.join (habits.map habitCard)) text := by
  unfold includesText at *
  rw [String.join_eq]
  refine ht.trans (List.infix_of_mem_flatten ?_)
  simp only [List.map_map, List.mem_map]
  exact ⟨habit, h, rfl⟩

/-- C3: for a non-empty list, the markup `renderHabits` assigns to the list container
includes, for every habit, the result of `escapeHtml` on its name, and on its description
and motivation when these are shown; that result contains no `<`, no `>` and no ampersand
other than the start of a character reference; and the markup has exactly the `<`, the
`>` and the bare ampersands of the markup written for the habits with these three texts
taken out, so none comes from them. -/
theorem renderHabits_escapes_text (habits : List Habit) (s : State) (hne : habits ≠ []) :
    (∀ habit ∈ habits,
      includesText (renderHabits habits s).dom.habitsList (escapeHtml habit.name) ∧
      (truthyOpt habit.description = true →
        includesText (renderHabits habits s).dom.habitsList
          (escapeHtml (habit.description.getD ""))) ∧
      (truthyOpt habit.motivation_text = true →
        includesText (renderHabits habits s).dom.habitsList
          (escapeHtml (habit.motivation_text.getD "")))) ∧
    (∀ text : String, '<' ∉ (escapeHtml text).data ∧ '>' ∉ (escapeHtml text).data ∧
      bareAmp (escapeHtml text).data = 0) ∧
    (renderHabits habits s).dom.habitsList.data.count '<' =
      (renderHabits (habits.map redact) s).dom.habitsList.data.count '<' ∧
    (renderHabits habits s).dom.habitsList.data.count '>' =
      (renderHabits (habits.map redact) s).dom.habitsList.data.count '>' ∧
    bareAmp (renderHabits habits s).dom.habitsList.data =
      bareAmp (renderHabits (habits.map redact) s).dom.habitsList.data := by
  have hlen : ¬ habits.length = 0 := by simpa using hne
  have h1 : (renderHabits habits s).dom.habitsList = String.join (habits.map habitCard) := by
    simp [renderHabits, hlen]
  have h2 : (renderHabits (habits.map redact) s).dom.habitsList =
      String.join ((habits.map redact).map habitCard) := by
    simp [renderHabits, hlen]
  rw [h1, h2]
  refine ⟨?_, ?_, cards_count '<' (Or.inl rfl) habits, cards_count '>' (Or.inr rfl) habits,
    cards_bareAmp habits⟩
  · intro habit hmem
    exact ⟨cards_include habits habit hmem _ (habitCard_includes habit).1,
      fun hd => cards_include habits habit hmem _ ((habitCard_includes habit).2.1 hd),
      fun hm => cards_include habits habit hmem _ ((habitCard_includes habit).2.2 hm)⟩
  · intro text
    refine ⟨List.not_mem_of_count_eq_zero (count_escapeHtml text).1,
      List.not_mem_of_count_eq_zero (count_escapeHtml text).2, ?_⟩
    have h0 := bareAmp_escapeHtml text []
    simpa [bareAmp] using h0

/-- Witness of C3: one habit whose three texts are full of markup. -/
theorem renderHabits_escapes_text_witness :
    (∀ habit ∈ sampleHabits,
      includesText (renderHabits sampleHabits sampleIdle).dom.habitsList
        (escapeHtml habit.name) ∧
      (truthyOpt habit.description = true →
        includesText (renderHabits sampleHabits sampleIdle).dom.habitsList
          (escapeHtml (habit.description.getD ""))) ∧
      (truthyOpt habit.motivation_text = true →
        includesText (renderHabits sampleHabits sampleIdle).dom.habitsList
          (escapeHtml (habit.motivation_text.getD "")))) ∧
    (∀ text : String, '<' ∉ (escapeHtml text).data ∧ '>' ∉ (escapeHtml text).data ∧
      bareAmp (escapeHtml text).data = 0) ∧
    (renderHabits sampleHabits sampleIdle).dom.habitsList.data.count '<' =
      (renderHabits (sampleHabits.map redact) sampleIdle).dom.habitsList.data.count '<' ∧
    (renderHabits sampleHabits sampleIdle).dom.habitsList.data.count '>' =
      (renderHabits (sampleHabits.map redact) sampleIdle).dom.habitsList.data.count '>' ∧
    bareAmp (renderHabits sampleHabits sampleIdle).dom.habitsList.data =
      bareAmp (renderHabits (sampleHabits.map redact) sampleIdle).dom.habitsList.data :=
  renderHabits_escapes_text sampleHabits sampleIdle (by decide)

/-- A text is included in any message that ends with it. -/
theorem includesText_append (intro text : String) : includesText (intro ++ text) text := by
  unfold includesText
  rw [String.data_append]
  exact (List.suffix_append _ _).isInfix

/-- C4, as stated, fails for the deletion: the server answers `DELETE /habits/7` with
status 500 and the body "boom", and the one notification shown is the fixed text
"Ошибка при удалении привычки", in which the body does not occur. -/
theorem deleteHabit_error_omits_body :
    (run sampleIdle [.clickDelete 7 true,
        .settled 0 (.response ⟨500, "boom", .malformed⟩)]).dom.notifications =
      [⟨"Ошибка при удалении привычки", "error"⟩] ∧
    ¬ includesText "Ошибка при удалении привычки" "boom" := by
  decide

/-- C4, amended: on an answer outside 200-299 with a non-empty body, exactly one error
notification is shown; for the creation of a habit and the recording of a completion its
message is the fixed introduction followed by the body, so it includes the body; for the
list of habits, the deletion, the analytics and the completion history it is a fixed
text, whatever the body. -/
theorem error_notification_by_operation (s : State) (i : Nat) (p : Pending) (r : Response)
    (hp : s.pending[i]? = some p) (hnok : r.ok = false) (hbody : r.text ≠ "") :
    (p.k = .addHabit →
      (handle s (.settled i (.response r))).dom.notifications = s.dom.notifications ++
        [⟨"Ошибка при добавлении привычки: " ++ r.text, "error"⟩] ∧
      includesText ("Ошибка при добавлении привычки: " ++ r.text) r.text) ∧
    (p.k = .saveCompletion →
      (handle s (.settled i (.response r))).dom.notifications = s.dom.notifications ++
        [⟨"Ошибка при сохранении данных: " ++ r.text, "error"⟩] ∧
      includesText ("Ошибка при сохранении данных: " ++ r.text) r.text) ∧
    (p.k = .deleteHabit →
      (handle s (.settled i (.response r))).dom.notifications = s.dom.notifications ++
        [⟨"Ошибка при удалении привычки", "error"⟩]) ∧
    (∀ after, p.k = .loadHabits after →
      (handle s (.settled i (.response r))).dom.notifications = s.dom.notifications ++
        [⟨"Ошибка загрузки привычек", "error"⟩]) ∧
    (p.k = .loadAnalytics →
      (handle s (.settled i (.response r))).dom.notifications = s.dom.notifications ++
        [⟨"Ошибка загрузки аналитики", "error"⟩]) ∧
    (p.k = .viewCompletions →
      (handle s (.settled i (.response r))).dom.notifications = s.dom.notifications ++
        [⟨"Ошибка загрузки статистики", "error"⟩]) := by
  rw [handle_settled s i _ _ hp]
  have ht : truthy r.text = true := by simpa [truthy] using hbody
  refine ⟨?_, ?_, ?_, ?_, ?_, ?_⟩
  · intro hk
    refine ⟨?_, includesText_append _ _⟩
    simp [hk, resume, addHabitResume, hnok, ht, addHabitFailed, showError, showNotification,
      consoleError]
  · intro hk
    refine ⟨?_, includesText_append _ _⟩
    simp [hk, resume, saveCompletionResume, hnok, ht, saveCompletionFailed, showError,
      showNotification, consoleError]
  · intro hk
    simp [hk, resume, deleteHabitResume, hnok, deleteHabitFailed, showError,
      showNotification, consoleError]
  · intro after hk
    cases after with
    | nothing =>
      simp [hk, resume, loadHabitsResume, hnok, loadHabitsFailed, showError,
        showNotification, consoleError, renderHabits, afterLoadHabits]
    | saveCompletion =>
      by_cases hc : s.currentTab = "analytics" <;>
      simp [hk, resume, loadHabitsResume, hnok, loadHabitsFailed, showError,
        showNotification, consoleError, renderHabits, afterLoadHabits, hc, loadAnalytics,
        fetch, showLoading, setInnerHTML]
  · intro hk
    simp [hk, resume, loadAnalyticsResume, hnok, loadAnalyticsFailed, showError,
      showNotification, consoleError, renderAnalytics]
  · intro hk
    simp [hk, resume, viewCompletionsResume, hnok, viewCompletionsFailed, showError,
      showNotification, consoleError]

/-- Witness of C4 as amended: `POST /habits/` answered with 422 and the body "taken". -/
theorem error_notification_by_operation_witness :
    (handle (run (typeHabitName "x" sampleIdle) [.submitHabitForm])
        (.settled 0 (.response ⟨422, "taken", .malformed⟩))).dom.notifications =
      [⟨"Ошибка при добавлении привычки: taken", "error"⟩] :=
  ((error_notification_by_operation (run (typeHabitName "x" sampleIdle) [.submitHabitForm]) 0
    ⟨⟨.POST, "http://localhost:8000/habits/",
      .habit ⟨"x", "", "bad", "daily", 1, "", "medium"⟩⟩, .addHabit⟩
    ⟨422, "taken", .malformed⟩ (by decide) (by decide) (by decide)).1 rfl).1

/-- C5: without confirmation `deleteHabit` changes nothing (no request, no notification,
the list as it was); with confirmation it issues the one request `DELETE /habits/{id}`,
and whatever the answer no further `DELETE` follows. -/
theorem deleteHabit_needs_confirmation (s : State) (habitId : Int) (o : FetchOutcome) :
    handle s (.clickDelete habitId false) = s ∧
    (handle s (.clickDelete habitId true)).requests =
      s.requests ++ [deleteRequest s habitId] ∧
    (handle s (.clickDelete habitId true)).pending =
      s.pending ++ [⟨deleteRequest s habitId, .deleteHabit⟩] ∧
    countDeletes (handle (handle s (.clickDelete habitId true))
        (.settled s.pending.length o)).requests = countDeletes s.requests + 1 := by
  refine ⟨by simp [handle, deleteHabit], by simp [handle, deleteHabit, fetch, deleteRequest],
    by simp [handle, deleteHabit, fetch, deleteRequest], ?_⟩
  rw [handle_settled _ s.pending.length o ⟨deleteRequest s habitId, .deleteHabit⟩
    (by simp [handle, deleteHabit, fetch, deleteRequest])]
  cases o with
  | networkError m =>
    simp [handle, deleteHabit, fetch, deleteRequest, resume, deleteHabitResume,
      deleteHabitFailed, countDeletes, List.filter_cons]
  | response r =>
    by_cases hok : r.ok = true <;>
    simp [handle, deleteHabit, fetch, deleteRequest, resume, deleteHabitResume,
      deleteHabitFailed, countDeletes, List.filter_cons, hok, getHabits]

/-- C6: with the completion date field empty, submitting the completion form issues no
request, shows one error notification and changes nothing else: the modal stays as it
was, `closeModal` not being called. -/
theorem saveCompletion_empty_date_rejected (s : State) (h : s.dom.completionDate = "") :
    ∃ message : String,
      handle s .submitCompletionForm = showError message s ∧
      (handle s .submitCompletionForm).requests = s.requests ∧
      (handle s .submitCompletionForm).pending = s.pending ∧
      (handle s .submitCompletionForm).dom.notifications =
        s.dom.notifications ++ [⟨message, "error"⟩] ∧
      (handle s .submitCompletionForm).dom.modalDisplay = s.dom.modalDisplay := by
  by_cases hid : falsyNum (parseInt s.dom.modalHabitId) = true
  · exact ⟨"Ошибка: не выбрана привычка",
      by simp [handle, saveCompletion, hid, showError, showNotification]⟩
  · exact ⟨"Выберите дату",
      by simp [handle, saveCompletion, hid, h, truthy, showError, showNotification]⟩

/-- Witness of C6: the modal opened for habit 7 and the date cleared. -/
theorem saveCompletion_empty_date_rejected_witness :
    ∃ message : String,
      handle (typeCompletionDate "" (run sampleIdle [.clickComplete 7])) .submitCompletionForm
        = showError message (typeCompletionDate "" (run sampleIdle [.clickComplete 7])) ∧
      (handle (typeCompletionDate "" (run sampleIdle [.clickComplete 7]))
        .submitCompletionForm).requests
        = (typeCompletionDate "" (run sampleIdle [.clickComplete 7])).requests ∧
      (handle (typeCompletionDate "" (run sampleIdle [.clickComplete 7]))
        .submitCompletionForm).pending
        = (typeCompletionDate "" (run sampleIdle [.clickComplete 7])).pending ∧
      (handle (typeCompletionDate "" (run sampleIdle [.clickComplete 7]))
        .submitCompletionForm).dom.notifications =
        (typeCompletionDate "" (run sampleIdle [.clickComplete 7])).dom.notifications
          ++ [⟨message, "error"⟩] ∧
      (handle (typeCompletionDate "" (run sampleIdle [.clickComplete 7]))
        .submitCompletionForm).dom.modalDisplay
        = (typeCompletionDate "" (run sampleIdle [.clickComplete 7])).dom.modalDisplay :=
  saveCompletion_empty_date_rejected
    (typeCompletionDate "" (run sampleIdle [.clickComplete 7])) rfl

/-- The method `closeModal` leaves the modal closed. -/
theorem closeModal_closed (s : State) : ModalClosed (closeModal s).dom := by
  simp [ModalClosed, closeModal, resetCompletionForm, setDefaultDate]
  decide

/-- C7: from every state, a click on the close control, a click on the modal backdrop and
the key Escape each lead to a state where the modal is hidden, the overflow of body and
document element is "auto", and the two sliders and their two labels read 0. -/
theorem close_paths_close_modal (s : State) :
    ModalClosed (handle s (.click .close)).dom ∧
    ModalClosed (handle s (.click .modal)).dom ∧
    ModalClosed (handle s (.keydown "Escape")).dom := by
  refine ⟨closeModal_closed s, closeModal_closed s, ?_⟩
  simpa [handle] using closeModal_closed s

/-- C8: when the `POST /habits/complete/` is answered in 200-299, `saveCompletion` closes
the modal and issues one `GET /habits/`, whose settling resumes the rest of
`saveCompletion`, and no other request.  In whatever state `t` that reload settles,
after whatever events and whatever its outcome, `saveCompletion` then issues one
`GET /analytics/` if `currentTab` is "analytics" in `t`, the moment of its test, and
no request otherwise, so none when `currentTab` is "habits". -/
theorem saveCompletion_success_reloads (s : State) (i : Nat) (req : Request) (r : Response)
    (t : State) (j : Nat) (req2 : Request) (o : FetchOutcome)
    (hp : s.pending[i]? = some ⟨req, .saveCompletion⟩) (hok : r.ok = true)
    (hreload : t.pending[j]? = some ⟨req2, .loadHabits .saveCompletion⟩) :
    ModalClosed (handle s (.settled i (.response r))).dom ∧
    (handle s (.settled i (.response r))).requests = s.requests ++ [getHabits s] ∧
    (handle s (.settled i (.response r))).pending =
      s.pending.eraseIdx i ++ [⟨getHabits s, .loadHabits .saveCompletion⟩] ∧
    (handle s (.settled i (.response r))).currentTab = s.currentTab ∧
    (t.currentTab = "analytics" →
      (handle t (.settled j o)).requests = t.requests ++ [getAnalytics t]) ∧
    (t.currentTab ≠ "analytics" → (handle t (.settled j o)).requests = t.requests) ∧
    (t.currentTab = "habits" → (handle t (.settled j o)).requests = t.requests) := by
  have h : (handle t (.settled j o)).requests =
      t.requests ++ (if t.currentTab = "analytics" then [getAnalytics t] else []) := by
    rw [handle_settled t j o _ hreload]
    simp only [resume]
    rw [loadHabitsResume_requests]
    simp [getAnalytics]
  refine ⟨?_, ?_, ?_, ?_, ?_, ?_, ?_⟩
  · rw [handle_settled s i _ _ hp]
    simp only [resume, saveCompletionResume, hok, if_true]
    simp [ModalClosed, loadHabits, fetch, showLoading, setInnerHTML, closeModal,
      resetCompletionForm, setDefaultDate]
    decide
  · exact (saveCompletion_success_fetches_once s i req r o hp hok).1
  · rw [handle_settled s i _ _ hp]
    simp [resume, saveCompletionResume, hok, getHabits]
  · rw [handle_settled s i _ _ hp]
    simp [resume, saveCompletionResume, hok]
  · intro ht
    rw [h]
    simp [ht]
  · intro ht
    rw [h]
    simp [ht]
  · intro ht
    rw [h]
    simp [ht]

/-- Witness of C8: the completion form is submitted on the habits tab and the `POST` is
answered with 200; the analytics tab is clicked before the reload of the habits settles,
so `currentTab` is "analytics" when `saveCompletion` tests it. -/
theorem saveCompletion_success_reloads_witness :
    ModalClosed (handle sampleSubmitted (.settled 0 (okJson .malformed))).dom ∧
    (handle sampleSubmitted (.settled 0 (okJson .malformed))).requests =
      sampleSubmitted.requests ++ [getHabits sampleSubmitted] ∧
    (handle sampleSubmitted (.settled 0 (okJson .malformed))).pending =
      sampleSubmitted.pending.eraseIdx 0 ++
        [⟨getHabits sampleSubmitted, .loadHabits .saveCompletion⟩] ∧
    (handle sampleSubmitted (.settled 0 (okJson .malformed))).currentTab =
      sampleSubmitted.currentTab ∧
    (sampleSwitched.currentTab = "analytics" →
      (handle sampleSwitched (.settled 0 (okJson (.habits [])))).requests =
        sampleSwitched.requests ++ [getAnalytics sampleSwitched]) ∧
    (sampleSwitched.currentTab ≠ "analytics" →
      (handle sampleSwitched (.settled 0 (okJson (.habits [])))).requests =
        sampleSwitched.requests) ∧
    (sampleSwitched.currentTab = "habits" →
      (handle sampleSwitched (.settled 0 (okJson (.habits [])))).requests =
        sampleSwitched.requests) :=
  saveCompletion_success_reloads sampleSubmitted 0 sampleSavingRequest ⟨200, "", .malformed⟩
    sampleSwitched 0 ⟨.GET, "http://localhost:8000/habits/", .empty⟩ (okJson (.habits []))
    (by decide) (by decide) (by decide)

/-- C9, as stated, fails: what `loadHabits` puts in the list container when the server
answers with an empty list is what it puts there when the request is rejected or
answered with status 500. -/
theorem loadHabits_empty_same_as_failure :
    (handle sampleStart (.settled 0 (okJson (.habits [])))).dom.habitsList =
      (handle sampleStart (.settled 0 (.networkError "Failed to fetch"))).dom.habitsList ∧
    (handle sampleStart (.settled 0 (okJson (.habits [])))).dom.habitsList =
      (handle sampleStart (.settled 0 (.response ⟨500, "", .malformed⟩))).dom.habitsList :=
  ⟨rfl, rfl⟩

/-- C9, amended: when a `GET /habits/` fails, the list container receives the view of an
empty list, the same as on a successful answer with an empty list; the failure differs by
the error notification "Ошибка загрузки привычек", which the empty answer does not show. -/
theorem loadHabits_failure_shown_by_notification (s : State) (i : Nat) (req : Request)
    (after : AfterLoadHabits) (o : FetchOutcome) (r : Response)
    (hp : s.pending[i]? = some ⟨req, .loadHabits after⟩)
    (hfail : o.failed = true) (hok : r.ok = true) (hempty : r.json = .habits []) :
    (handle s (.settled i o)).dom.habitsList = emptyHabitsHtml ∧
    (handle s (.settled i (.response r))).dom.habitsList = emptyHabitsHtml ∧
    (handle s (.settled i o)).dom.notifications =
      s.dom.notifications ++ [⟨"Ошибка загрузки привычек", "error"⟩] ∧
    (handle s (.settled i (.response r))).dom.notifications = s.dom.notifications := by
  rw [handle_settled s i _ _ hp, handle_settled s i _ _ hp]
  have hafter : ∀ t : State, (afterLoadHabits after t).dom.habitsList = t.dom.habitsList ∧
      (afterLoadHabits after t).dom.notifications = t.dom.notifications := by
    intro t
    cases after with
    | nothing => simp [afterLoadHabits]
    | saveCompletion =>
      by_cases hc : t.currentTab = "analytics" <;>
      simp [afterLoadHabits, hc, loadAnalytics, fetch, showLoading, setInnerHTML]
  have hf : resume (Pending.mk req (.loadHabits after)).k o
      { s with pending := s.pending.eraseIdx i } =
      afterLoadHabits after (loadHabitsFailed { s with pending := s.pending.eraseIdx i }) := by
    cases o with
    | networkError m => simp [resume, loadHabitsResume]
    | response r2 =>
      have : r2.ok = false := by simpa [FetchOutcome.failed] using hfail
      simp [resume, loadHabitsResume, this]
  have hs : resume (Pending.mk req (.loadHabits after)).k (.response r)
      { s with pending := s.pending.eraseIdx i } =
      afterLoadHabits after (renderHabits [] { s with pending := s.pending.eraseIdx i }) := by
    simp [resume, loadHabitsResume, hok, hempty]
  rw [hf, hs]
  simp [hafter, loadHabitsFailed, renderHabits, showError, showNotification, consoleError]

/-- Witness of C9 as amended: the first load of `init` rejected, or answered with `[]`. -/
theorem loadHabits_failure_shown_by_notification_witness :
    (handle sampleStart (.settled 0 (.networkError "Failed to fetch"))).dom.habitsList
      = emptyHabitsHtml ∧
    (handle sampleStart (.settled 0 (.response ⟨200, "[]", .habits []⟩))).dom.habitsList
      = emptyHabitsHtml ∧
    (handle sampleStart (.settled 0 (.networkError "Failed to fetch"))).dom.notifications =
      sampleStart.dom.notifications ++ [⟨"Ошибка загрузки привычек", "error"⟩] ∧
    (handle sampleStart (.settled 0 (.response ⟨200, "[]", .habits []⟩))).dom.notifications
      = sampleStart.dom.notifications :=
  loadHabits_failure_shown_by_notification sampleStart 0
    ⟨.GET, "http://localhost:8000/habits/", .empty⟩ .nothing (.networkError "Failed to fetch")
    ⟨200, "[]", .habits []⟩ (by decide) (by decide) (by decide) (by decide)

/-- On an analytics answer without totals `renderAnalytics` shows the empty-state message,
builds no chart, and touches neither `this.chart` nor what the canvas shows. -/
theorem renderAnalytics_without_totals (analytics : Analytics) (s : State)
    (h : analytics.total_stats = none ∨ analytics.total_stats = some []) :
    (renderAnalytics analytics s).dom.statsGrid = emptyAnalyticsHtml ∧
    (renderAnalytics analytics s).chartsCreated = s.chartsCreated ∧
    (renderAnalytics analytics s).chart = s.chart ∧
    (renderAnalytics analytics s).liveCharts = s.liveCharts := by
  rcases h with h | h <;> simp [renderAnalytics, h]

/-- C10, at an input where it fails: the analytics tab is shown with one habit, so a chart
is drawn; the tab is clicked again and the server now answers with empty `total_stats`.
The grid shows the empty-state message and no chart is built, but the chart of the first
answer was not destroyed: it is still what the canvas shows, where the claim has no chart
displayed. -/
theorem renderAnalytics_empty_keeps_old_chart :
    (run sampleIdle [.click (.navBtn "analytics"), .settled 0 (okJson (.analytics sampleAnalytics)),
        .click (.navBtn "analytics"),
        .settled 0 (okJson (.analytics ⟨some [], some []⟩))]).dom.statsGrid
      = emptyAnalyticsHtml ∧
    (run sampleIdle [.click (.navBtn "analytics"), .settled 0 (okJson (.analytics sampleAnalytics)),
        .click (.navBtn "analytics"),
        .settled 0 (okJson (.analytics ⟨some [], some []⟩))]).chartsCreated = 1 ∧
    (run sampleIdle [.click (.navBtn "analytics"), .settled 0 (okJson (.analytics sampleAnalytics)),
        .click (.navBtn "analytics"),
        .settled 0 (okJson (.analytics ⟨some [], some []⟩))]).liveCharts
      = [⟨0, ["Smoking"], [40]⟩] :=
  ⟨rfl, rfl, rfl⟩

/-! ### The chart across the methods -/

/-- Appending the cards of the habits to the grid touches no chart and not the canvas. -/
theorem statCards_frame (stats : List HabitStat) (s : State) :
    (stats.foldl (fun s stat => { s with dom := { s.dom with
        statsGrid := s.dom.statsGrid ++ statCard stat } }) s).chart = s.chart ∧
    (stats.foldl (fun s stat => { s with dom := { s.dom with
        statsGrid := s.dom.statsGrid ++ statCard stat } }) s).liveCharts = s.liveCharts ∧
    (stats.foldl (fun s stat => { s with dom := { s.dom with
        statsGrid := s.dom.statsGrid ++ statCard stat } }) s).chartsCreated = s.chartsCreated ∧
    (stats.foldl (fun s stat => { s with dom := { s.dom with
        statsGrid := s.dom.statsGrid ++ statCard stat } }) s).dom.hasCanvas = s.dom.hasCanvas := by
  induction stats generalizing s with
  | nil => simp
  | cons stat stats ih =>
    rw [List.foldl_cons]
    simpa using ih _

/-- The method `renderChart` keeps the charts tracked. -/
theorem renderChart_tracked (habitStats : List HabitStat) (s : State) (h : ChartsTracked s) :
    ChartsTracked (renderChart habitStats s) := by
  obtain ⟨h1, h2⟩ := h
  unfold renderChart
  by_cases hc : s.dom.hasCanvas = true
  · cases hch : s.chart with
    | none =>
      have hl : s.liveCharts = [] := by
        cases hl : s.liveCharts with
        | nil => rfl
        | cons c l => have := h1 c (by simp [hl]); simp [hch] at this
      by_cases hn : habitStats.length = 0
      · simp [hc, hch, hn, ChartsTracked, hl]
      · simp [hc, hch, hn, ChartsTracked, hl]
    | some c =>
      have hl : s.liveCharts.filter (fun d => d.id != c.id) = [] := by
        rw [List.filter_eq_nil_iff]
        intro d hd
        have := h1 d hd
        rw [hch] at this
        simp at this
        simp [this]
      have hid := h2 c hch
      by_cases hn : habitStats.length = 0
      · simp [hc, hch, hn, ChartsTracked, destroyChart, hl, hid]
      · simp [hc, hch, hn, ChartsTracked, destroyChart, hl]
  · simp [hc, ChartsTracked]
    exact ⟨h1, h2⟩


/-- The method `showNotification` builds no chart and destroys none. -/
@[simp]
theorem showNotification_charts (message type : String) (s : State) :
    (showNotification message type s).chart = s.chart ∧ (showNotification message type s).liveCharts = s.liveCharts ∧
    (showNotification message type s).chartsCreated = s.chartsCreated := by
  simp [showNotification]

/-- The method `showSuccess` builds no chart and destroys none. -/
@[simp]
theorem showSuccess_charts (message : String) (s : State) :
    (showSuccess message s).chart = s.chart ∧ (showSuccess message s).liveCharts = s.liveCharts ∧
    (showSuccess message s).chartsCreated = s.chartsCreated := by
  simp [showSuccess]

/-- The method `showError` builds no chart and destroys none. -/
@[simp]
theorem showError_charts (message : String) (s : State) :
    (showError message s).chart = s.chart ∧ (showError message s).liveCharts = s.liveCharts ∧
    (showError message s).chartsCreated = s.chartsCreated := by
  simp [showError]

/-- The method `consoleError` builds no chart and destroys none. -/
@[simp]
theorem consoleError_charts (label : String) (s : State) :
    (consoleError label s).chart = s.chart ∧ (consoleError label s).liveCharts = s.liveCharts ∧
    (consoleError label s).chartsCreated = s.chartsCreated := by
  simp [consoleError]

/-- The method `showLoading` builds no chart and destroys none. -/
@[simp]
theorem showLoading_charts (containerId message : String) (s : State) :
    (showLoading containerId message s).chart = s.chart ∧ (showLoading containerId message s).liveCharts = s.liveCharts ∧
    (showLoading containerId message s).chartsCreated = s.chartsCreated := by
  simp [showLoading]

/-- The method `renderHabits` builds no chart and destroys none. -/
@[simp]
theorem renderHabits_charts (habits : List Habit) (s : State) :
    (renderHabits habits s).chart = s.chart ∧ (renderHabits habits s).liveCharts = s.liveCharts ∧
    (renderHabits habits s).chartsCreated = s.chartsCreated := by
  unfold renderHabits
  split <;> simp

/-- The method `setDefaultDate` builds no chart and destroys none. -/
@[simp]
theorem setDefaultDate_charts (s : State) :
    (setDefaultDate s).chart = s.chart ∧ (setDefaultDate s).liveCharts = s.liveCharts ∧
    (setDefaultDate s).chartsCreated = s.chartsCreated := by
  simp [setDefaultDate]

/-- The method `resetCompletionForm` builds no chart and destroys none. -/
@[simp]
theorem resetCompletionForm_charts (s : State) :
    (resetCompletionForm s).chart = s.chart ∧ (resetCompletionForm s).liveCharts = s.liveCharts ∧
    (resetCompletionForm s).chartsCreated = s.chartsCreated := by
  simp [resetCompletionForm]

/-- The method `resetHabitForm` builds no chart and destroys none. -/
@[simp]
theorem resetHabitForm_charts (s : State) :
    (resetHabitForm s).chart = s.chart ∧ (resetHabitForm s).liveCharts = s.liveCharts ∧
    (resetHabitForm s).chartsCreated = s.chartsCreated := by
  simp [resetHabitForm]

/-- The method `closeModal` builds no chart and destroys none. -/
@[simp]
theorem closeModal_charts (s : State) :
    (closeModal s).chart = s.chart ∧ (closeModal s).liveCharts = s.liveCharts ∧
    (closeModal s).chartsCreated = s.chartsCreated := by
  simp [closeModal]

/-- The method `loadHabitsFailed` builds no chart and destroys none. -/
@[simp]
theorem loadHabitsFailed_charts (s : State) :
    (loadHabitsFailed s).chart = s.chart ∧ (loadHabitsFailed s).liveCharts = s.liveCharts ∧
    (loadHabitsFailed s).chartsCreated = s.chartsCreated := by
  simp [loadHabitsFailed]

/-- The method `fetch` builds no chart and destroys none. -/
@[simp]
theorem fetch_charts (req : Request) (k : Cont) (s : State) :
    (fetch req k s).chart = s.chart ∧ (fetch req k s).liveCharts = s.liveCharts ∧
    (fetch req k s).chartsCreated = s.chartsCreated := by
  simp [fetch]

/-- The method `loadHabits` builds no chart and destroys none. -/
@[simp]
theorem loadHabits_charts (after : AfterLoadHabits) (s : State) :
    (loadHabits after s).chart = s.chart ∧ (loadHabits after s).liveCharts = s.liveCharts ∧
    (loadHabits after s).chartsCreated = s.chartsCreated := by
  simp [loadHabits]

/-- The method `loadAnalytics` builds no chart and destroys none. -/
@[simp]
theorem loadAnalytics_charts (s : State) :
    (loadAnalytics s).chart = s.chart ∧ (loadAnalytics s).liveCharts = s.liveCharts ∧
    (loadAnalytics s).chartsCreated = s.chartsCreated := by
  simp [loadAnalytics]

/-- The method `showTab` builds no chart and destroys none. -/
@[simp]
theorem showTab_charts (tabName : String) (s : State) :
    (showTab tabName s).chart = s.chart ∧ (showTab tabName s).liveCharts = s.liveCharts ∧
    (showTab tabName s).chartsCreated = s.chartsCreated := by
  unfold showTab
  split_ifs <;> simp

/-- The method `openCompletionModal` builds no chart and destroys none. -/
@[simp]
theorem openCompletionModal_charts (habitId : Int) (s : State) :
    (openCompletionModal habitId s).chart = s.chart ∧ (openCompletionModal habitId s).liveCharts = s.liveCharts ∧
    (openCompletionModal habitId s).chartsCreated = s.chartsCreated := by
  simp [openCompletionModal]

/-- The method `addHabit` builds no chart and destroys none. -/
@[simp]
theorem addHabit_charts (s : State) :
    (addHabit s).chart = s.chart ∧ (addHabit s).liveCharts = s.liveCharts ∧
    (addHabit s).chartsCreated = s.chartsCreated := by
  unfold addHabit
  dsimp only
  split_ifs <;> simp

/-- The method `deleteHabit` builds no chart and destroys none. -/
@[simp]
theorem deleteHabit_charts (habitId : Int) (confirmed : Bool) (s : State) :
    (deleteHabit habitId confirmed s).chart = s.chart ∧ (deleteHabit habitId confirmed s).liveCharts = s.liveCharts ∧
    (deleteHabit habitId confirmed s).chartsCreated = s.chartsCreated := by
  unfold deleteHabit
  split_ifs <;> simp

/-- The method `saveCompletion` builds no chart and destroys none. -/
@[simp]
theorem saveCompletion_charts (s : State) :
    (saveCompletion s).chart = s.chart ∧ (saveCompletion s).liveCharts = s.liveCharts ∧
    (saveCompletion s).chartsCreated = s.chartsCreated := by
  unfold saveCompletion
  dsimp only
  split_ifs <;> simp

/-- The method `viewCompletions` builds no chart and destroys none. -/
@[simp]
theorem viewCompletions_charts (habitId : Int) (s : State) :
    (viewCompletions habitId s).chart = s.chart ∧ (viewCompletions habitId s).liveCharts = s.liveCharts ∧
    (viewCompletions habitId s).chartsCreated = s.chartsCreated := by
  simp [viewCompletions]

/-- The method `showCompletions` builds no chart and destroys none. -/
@[simp]
theorem showCompletions_charts (completions : List Completion) (s : State) :
    (showCompletions completions s).chart = s.chart ∧ (showCompletions completions s).liveCharts = s.liveCharts ∧
    (showCompletions completions s).chartsCreated = s.chartsCreated := by
  unfold showCompletions
  split_ifs <;> simp

/-- The method `afterLoadHabits` builds no chart and destroys none. -/
@[simp]
theorem afterLoadHabits_charts (after : AfterLoadHabits) (s : State) :
    (afterLoadHabits after s).chart = s.chart ∧ (afterLoadHabits after s).liveCharts = s.liveCharts ∧
    (afterLoadHabits after s).chartsCreated = s.chartsCreated := by
  unfold afterLoadHabits
  split <;> try split_ifs
  all_goals simp

/-- The method `loadHabitsResume` builds no chart and destroys none. -/
@[simp]
theorem loadHabitsResume_charts (after : AfterLoadHabits) (o : FetchOutcome) (s : State) :
    (loadHabitsResume after o s).chart = s.chart ∧ (loadHabitsResume after o s).liveCharts = s.liveCharts ∧
    (loadHabitsResume after o s).chartsCreated = s.chartsCreated := by
  unfold loadHabitsResume
  split <;> try split_ifs
  all_goals try split
  all_goals simp

/-- The method `addHabitFailed` builds no chart and destroys none. -/
@[simp]
theorem addHabitFailed_charts (message : String) (s : State) :
    (addHabitFailed message s).chart = s.chart ∧ (addHabitFailed message s).liveCharts = s.liveCharts ∧
    (addHabitFailed message s).chartsCreated = s.chartsCreated := by
  simp [addHabitFailed]

/-- The method `addHabitResume` builds no chart and destroys none. -/
@[simp]
theorem addHabitResume_charts (o : FetchOutcome) (s : State) :
    (addHabitResume o s).chart = s.chart ∧ (addHabitResume o s).liveCharts = s.liveCharts ∧
    (addHabitResume o s).chartsCreated = s.chartsCreated := by
  unfold addHabitResume
  split <;> try split_ifs
  all_goals simp

/-- The method `deleteHabitFailed` builds no chart and destroys none. -/
@[simp]
theorem deleteHabitFailed_charts (s : State) :
    (deleteHabitFailed s).chart = s.chart ∧ (deleteHabitFailed s).liveCharts = s.liveCharts ∧
    (deleteHabitFailed s).chartsCreated = s.chartsCreated := by
  simp [deleteHabitFailed]

/-- The method `deleteHabitResume` builds no chart and destroys none. -/
@[simp]
theorem deleteHabitResume_charts (o : FetchOutcome) (s : State) :
    (deleteHabitResume o s).chart = s.chart ∧ (deleteHabitResume o s).liveCharts = s.liveCharts ∧
    (deleteHabitResume o s).chartsCreated = s.chartsCreated := by
  unfold deleteHabitResume
  split <;> try split_ifs
  all_goals simp

/-- The method `saveCompletionFailed` builds no chart and destroys none. -/
@[simp]
theorem saveCompletionFailed_charts (message : String) (s : State) :
    (saveCompletionFailed message s).chart = s.chart ∧ (saveCompletionFailed message s).liveCharts = s.liveCharts ∧
    (saveCompletionFailed message s).chartsCreated = s.chartsCreated := by
  simp [saveCompletionFailed]

/-- The method `saveCompletionResume` builds no chart and destroys none. -/
@[simp]
theorem saveCompletionResume_charts (o : FetchOutcome) (s : State) :
    (saveCompletionResume o s).chart = s.chart ∧ (saveCompletionResume o s).liveCharts = s.liveCharts ∧
    (saveCompletionResume o s).chartsCreated = s.chartsCreated := by
  unfold saveCompletionResume
  split <;> try split_ifs
  all_goals simp

/-- The method `viewCompletionsFailed` builds no chart and destroys none. -/
@[simp]
theorem viewCompletionsFailed_charts (s : State) :
    (viewCompletionsFailed s).chart = s.chart ∧ (viewCompletionsFailed s).liveCharts = s.liveCharts ∧
    (viewCompletionsFailed s).chartsCreated = s.chartsCreated := by
  simp [viewCompletionsFailed]

/-- The method `viewCompletionsResume` builds no chart and destroys none. -/
@[simp]
theorem viewCompletionsResume_charts (o : FetchOutcome) (s : State) :
    (viewCompletionsResume o s).chart = s.chart ∧ (viewCompletionsResume o s).liveCharts = s.liveCharts ∧
    (viewCompletionsResume o s).chartsCreated = s.chartsCreated := by
  unfold viewCompletionsResume
  split <;> try split_ifs
  all_goals try split
  all_goals simp


/-- The invariant only looks at the chart fields. -/
theorem ChartsTracked.of_same {s t : State} (h : ChartsTracked s)
    (h1 : t.chart = s.chart ∧ t.liveCharts = s.liveCharts ∧ t.chartsCreated = s.chartsCreated) :
    ChartsTracked t := by
  unfold ChartsTracked at *
  rw [h1.1, h1.2.1, h1.2.2]
  exact h

/-- The method `renderAnalytics` keeps the charts tracked. -/
theorem renderAnalytics_tracked (analytics : Analytics) (s : State) (h : ChartsTracked s) :
    ChartsTracked (renderAnalytics analytics s) := by
  unfold renderAnalytics
  split
  · exact h.of_same (by simp)
  · split
    · exact h.of_same (by simp)
    · apply renderChart_tracked
      exact h.of_same (by
        have := statCards_frame (analytics.habit_stats.getD [])
          { s with dom := { s.dom with statsGrid := totalsHtml ‹_› } }
        exact ⟨this.1, this.2.1, this.2.2.1⟩)

/-- The code resumed when a request settles keeps the charts tracked. -/
theorem resume_tracked (k : Cont) (o : FetchOutcome) (s : State) (h : ChartsTracked s) :
    ChartsTracked (resume k o s) := by
  cases k with
  | loadHabits after => exact h.of_same (by simp [resume])
  | addHabit => exact h.of_same (by simp [resume])
  | deleteHabit => exact h.of_same (by simp [resume])
  | saveCompletion => exact h.of_same (by simp [resume])
  | viewCompletions => exact h.of_same (by simp [resume])
  | loadAnalytics =>
    simp only [resume, loadAnalyticsResume, loadAnalyticsFailed]
    split
    · exact renderAnalytics_tracked _ _ (h.of_same (by simp))
    · split
      · exact renderAnalytics_tracked _ _ (h.of_same (by simp))
      · split
        · exact renderAnalytics_tracked _ _ h
        · exact renderAnalytics_tracked _ _ (h.of_same (by simp))

/-- Every event keeps the charts tracked. -/
theorem handle_tracked (s : State) (e : Event) (h : ChartsTracked s) :
    ChartsTracked (handle s e) := by
  cases e with
  | click target =>
    cases target <;> first | exact h | exact h.of_same (by simp [handle])
  | keydown key =>
    simp only [handle]
    split_ifs
    · exact h.of_same (by simp)
    · exact h
  | submitHabitForm => exact h.of_same (by simp [handle])
  | submitCompletionForm => exact h.of_same (by simp [handle])
  | inputCraving value => exact h
  | inputResistance value => exact h
  | clickDelete habitId confirmed => exact h.of_same (by simp [handle])
  | clickComplete habitId => exact h.of_same (by simp [handle])
  | clickStatistics habitId => exact h.of_same (by simp [handle])
  | settled i o =>
    simp only [handle, fetchSettled]
    split
    · exact h
    · exact resume_tracked _ _ _ h

/-- The charts are tracked in every state the controller reaches from its construction. -/
theorem run_tracked (dom : Dom) (defaults : FormDefaults) (today : String)
    (events : List Event) :
    ChartsTracked (run (BadHabitTracker.new dom defaults today) events) := by
  have h0 : ChartsTracked (BadHabitTracker.new dom defaults today) := by
    have hc : ChartsTracked
        { dom := dom, defaults := defaults, today := today, apiBase := "http://localhost:8000",
          currentTab := "habits", chart := none, liveCharts := [], chartsCreated := 0,
          requests := [], pending := [], console := [], alerts := [] } := by
      simp [ChartsTracked]
    exact hc.of_same (by simp [BadHabitTracker.new, init])
  generalize BadHabitTracker.new dom defaults today = s at h0
  unfold run
  induction events generalizing s with
  | nil => exact h0
  | cons e events ih => exact ih _ (handle_tracked s e h0)

/-- What `renderChart` does on a page with a canvas. -/
theorem renderChart_redraws (habitStats : List HabitStat) (s : State)
    (hc : s.dom.hasCanvas = true) (h : ChartsTracked s) :
    (∀ c, s.chart = some c → c ∉ (renderChart habitStats s).liveCharts) ∧
    (habitStats ≠ [] →
      (renderChart habitStats s).chart = some ⟨s.chartsCreated,
        habitStats.map fun stat => stat.habit_name,
        habitStats.map fun stat => orZero stat.completion_rate⟩ ∧
      (renderChart habitStats s).liveCharts = [⟨s.chartsCreated,
        habitStats.map fun stat => stat.habit_name,
        habitStats.map fun stat => orZero stat.completion_rate⟩] ∧
      (renderChart habitStats s).chartsCreated = s.chartsCreated + 1) ∧
    (habitStats = [] →
      (renderChart habitStats s).liveCharts = [] ∧
      (renderChart habitStats s).chartsCreated = s.chartsCreated) := by
  obtain ⟨h1, h2⟩ := h
  have hl : ∀ c, s.chart = some c → s.liveCharts.filter (fun d => d.id != c.id) = [] := by
    intro c hch
    rw [List.filter_eq_nil_iff]
    intro d hd
    have := h1 d hd
    rw [hch] at this
    simp at this
    simp [this]
  have hl0 : s.chart = none → s.liveCharts = [] := by
    intro hch
    cases hl : s.liveCharts with
    | nil => rfl
    | cons c l => have := h1 c (by simp [hl]); simp [hch] at this
  unfold renderChart
  cases hch : s.chart with
  | none =>
    by_cases hn : habitStats = []
    · simp [hc, hn, hl0 hch]
    · have hn2 : ¬ habitStats.length = 0 := by simpa using hn
      simp [hc, hn, hn2, hl0 hch]
  | some c =>
    have hid := h2 c hch
    by_cases hn : habitStats = []
    · simp [hc, hn, destroyChart, hl c hch]
    · have hn2 : ¬ habitStats.length = 0 := by simpa using hn
      simp [hc, hn, hn2, destroyChart, hl c hch]
      intro hce
      rw [hce] at hid
      simp at hid

/-- C11, as stated, fails: the analytics tab is shown with one habit, then reloaded with
an answer that has totals and an empty `habit_stats`.  `renderAnalytics` is reached and
writes the totals, the chart of the first answer is destroyed, and no new chart is built:
one chart was ever created, none is shown, and `this.chart` refers to no live chart. -/
theorem analytics_reload_without_stats_builds_no_chart :
    (handle sampleReloading (.settled 0 (okJson (.analytics sampleNoStats)))).chartsCreated
      = sampleReloading.chartsCreated ∧
    (handle sampleReloading (.settled 0 (okJson (.analytics sampleNoStats)))).liveCharts = [] ∧
    chartLive (handle sampleReloading (.settled 0 (okJson (.analytics sampleNoStats))))
      = false ∧
    chartLive sampleReloading = true :=
  ⟨rfl, rfl, rfl, rfl⟩

/-- With one controller on the page (`ChartsTracked`), an analytics reload answered with
non-empty `total_stats` leaves at most one chart on the canvas: the chart built before is
destroyed, and when `habit_stats` is not empty the new chart is the one chart shown. -/
theorem singleController_redraws_chart (s : State) (i : Nat) (req : Request) (r : Response)
    (analytics : Analytics) (totals : List (String × Int))
    (hp : s.pending[i]? = some ⟨req, .loadAnalytics⟩) (hok : r.ok = true)
    (hj : r.json = .analytics analytics) (ht : analytics.total_stats = some totals)
    (hne : totals ≠ []) (hc : s.dom.hasCanvas = true) (hinv : ChartsTracked s) :
    (∀ c, s.chart = some c → c ∉ (handle s (.settled i (.response r))).liveCharts) ∧
    (analytics.habit_stats.getD [] ≠ [] →
      (handle s (.settled i (.response r))).chart = some ⟨s.chartsCreated,
        (analytics.habit_stats.getD []).map fun stat => stat.habit_name,
        (analytics.habit_stats.getD []).map fun stat => orZero stat.completion_rate⟩ ∧
      (handle s (.settled i (.response r))).liveCharts = [⟨s.chartsCreated,
        (analytics.habit_stats.getD []).map fun stat => stat.habit_name,
        (analytics.habit_stats.getD []).map fun stat => orZero stat.completion_rate⟩] ∧
      (handle s (.settled i (.response r))).chartsCreated = s.chartsCreated + 1) ∧
    (analytics.habit_stats.getD [] = [] →
      (handle s (.settled i (.response r))).liveCharts = [] ∧
      (handle s (.settled i (.response r))).chartsCreated = s.chartsCreated) := by
  rw [handle_settled s i _ _ hp]
  have hlen : ¬ totals.length = 0 := by simpa using hne
  simp only [resume, loadAnalyticsResume, hok, hj, renderAnalytics, ht, hlen, if_false,
    Bool.not_true, Bool.false_eq_true]
  obtain ⟨f1, f2, f3, f4⟩ := statCards_frame (analytics.habit_stats.getD [])
    { s with
      pending := s.pending.eraseIdx i
      dom := { s.dom with statsGrid := totalsHtml totals } }
  generalize (analytics.habit_stats.getD []).foldl
    (fun s stat =>
      { s with dom := { s.dom with statsGrid := s.dom.statsGrid ++ statCard stat } })
    { s with
      pending := s.pending.eraseIdx i
      dom := { s.dom with statsGrid := totalsHtml totals } }
    = t at f1 f2 f3 f4 ⊢
  simp only at f1 f2 f3 f4
  have ht2 : ChartsTracked t := hinv.of_same ⟨f1, f2, f3⟩
  have h := renderChart_redraws (analytics.habit_stats.getD []) t (by rw [f4]; exact hc) ht2
  rw [f1, f3] at h
  exact h

/-! ### The controllers the script builds -/

/-- A state is its shared part seen from its controller. -/
theorem focus_world (s : State) : s.world.focus s.controller = s := rfl

/-- The constructor adds one controller and leaves the listeners of the script alone. -/
theorem construct_controllers (p : Page) :
    p.construct.controllers.length = p.controllers.length + 1 ∧
    p.construct.loadedListeners = p.loadedListeners ∧
    p.construct.domContentLoaded = p.domContentLoaded := by
  simp [Page.construct]

/-- Running the constructor `n` times adds `n` controllers. -/
theorem construct_times (n : Nat) (p : Page) :
    ((List.range n).foldl (fun q _ => q.construct) p).controllers.length
      = p.controllers.length + n := by
  induction n with
  | zero => simp
  | succ n ih =>
    rw [List.range_succ, List.foldl_append]
    simp [construct_controllers, ih]
    omega

/-- The number of controllers the script builds, once `DOMContentLoaded` has been dispatched:
two when the event had not been dispatched when the script ran (both the listener of
script.js 591 and the code of 596-602 build one), one when it had and the document was
not `loading`. -/
theorem bootstrap_controllers (readyState : String) (fired : Bool) (dom : Dom)
    (defaults : FormDefaults) (today : String) :
    ((loadScript readyState fired dom defaults
        today).fireDomContentLoaded).controllers.length =
      if fired then (if readyState = "loading" then 0 else 1) else 2 := by
  by_cases hr : readyState = "loading" <;> cases fired
  · simp [loadScript, hr, Page.fireDomContentLoaded, construct_times]
  · simp [loadScript, hr, Page.fireDomContentLoaded]
  · simp only [loadScript, hr, Page.fireDomContentLoaded, if_false, construct_controllers,
      Bool.false_eq_true]
    rw [construct_times]
    simp [construct_controllers]
  · simp [loadScript, hr, Page.fireDomContentLoaded, construct_controllers]

/-- On a document already `complete` the script builds the one controller of
`BadHabitTracker.new`. -/
theorem loadScript_complete (dom : Dom) (defaults : FormDefaults) (today : String) :
    (loadScript "complete" true dom defaults today).fireDomContentLoaded.controllers =
      [(BadHabitTracker.new dom defaults today).controller] ∧
    (loadScript "complete" true dom defaults today).fireDomContentLoaded.world =
      (BadHabitTracker.new dom defaults today).world := by
  constructor <;> rfl

/-- On a page with one controller, an event does what `handle` does. -/
theorem dispatch_single (w : World) (c : Controller) (n : Nat) (b : Bool) (e : Event) :
    ((Page.mk w [c] (List.replicate w.pending.length 0) n b).dispatch e).controllers =
      [(handle (w.focus c) e).controller] ∧
    ((Page.mk w [c] (List.replicate w.pending.length 0) n b).dispatch e).world =
      (handle (w.focus c) e).world := by
  cases e with
  | settled i o =>
    simp only [Page.dispatch, Page.settle, handle]
    by_cases hi : i < w.pending.length
    · simp [hi, List.getElem?_replicate]
    · have h1 : w.pending[i]? = none := by simp; omega
      simp [hi, List.getElem?_replicate, fetchSettled, World.focus, h1, State.world,
        State.controller]
  | click target => cases target <;> simp [Page.dispatch, Page.call, List.range_succ]
  | keydown key => simp [Page.dispatch, Page.call, List.range_succ]
  | submitHabitForm => simp [Page.dispatch, Page.call, List.range_succ]
  | submitCompletionForm => simp [Page.dispatch, Page.call, List.range_succ]
  | inputCraving value => simp [Page.dispatch, Page.call, List.range_succ]
  | inputResistance value => simp [Page.dispatch, Page.call, List.range_succ]
  | clickDelete habitId confirmed => simp [Page.dispatch, Page.call, handle]
  | clickComplete habitId => simp [Page.dispatch, Page.call, handle]
  | clickStatistics habitId => simp [Page.dispatch, Page.call, handle]

/-- C12, at an input where it fails: the script runs while the document is `loading` and
`DOMContentLoaded` is then dispatched.  Two controllers are built, each with its own
listeners, and one submit of the habit form, or of the completion form, issues the `POST`
twice, where the claim has one controller and one call. -/
theorem loading_builds_two_controllers :
    sampleLoaded.controllers.length = 2 ∧
    ((sampleLoaded.typeHabitName "x").dispatch .submitHabitForm).world.requests =
      (sampleLoaded.typeHabitName "x").world.requests ++
        [⟨.POST, "http://localhost:8000/habits/",
            .habit ⟨"x", "", "bad", "daily", 1, "", "medium"⟩⟩,
         ⟨.POST, "http://localhost:8000/habits/",
            .habit ⟨"x", "", "bad", "daily", 1, "", "medium"⟩⟩] ∧
    ((sampleLoaded.dispatch (.clickComplete 7)).dispatch .submitCompletionForm).world.requests =
      sampleLoaded.world.requests ++
        [⟨.POST, "http://localhost:8000/habits/complete/",
            .completion ⟨7, "2024-01-01", false, "", some 5, some 5⟩⟩,
         ⟨.POST, "http://localhost:8000/habits/complete/",
            .completion ⟨7, "2024-01-01", false, "", some 5, some 5⟩⟩] := by
  decide

/-! ### Requests in flight across events -/

/-- Appending the cards of the habits to the grid issues no request. -/
theorem statCards_pending (stats : List HabitStat) (s : State) :
    (stats.foldl (fun s stat => { s with dom := { s.dom with
        statsGrid := s.dom.statsGrid ++ statCard stat } }) s).pending = s.pending := by
  induction stats generalizing s with
  | nil => simp
  | cons stat stats ih =>
    rw [List.foldl_cons]
    simpa using ih _

/-- The method `renderChart` issues no request. -/
theorem renderChart_pending (habitStats : List HabitStat) (s : State) :
    (renderChart habitStats s).pending = s.pending := by
  unfold renderChart
  cases s.chart <;> (split_ifs <;> simp [destroyChart])

/-- The method `renderAnalytics` issues no request. -/
theorem renderAnalytics_pending (analytics : Analytics) (s : State) :
    (renderAnalytics analytics s).pending = s.pending := by
  unfold renderAnalytics
  split
  · simp
  · split
    · simp
    · simp only [renderChart_pending, statCards_pending]

/-- The code resumed when a request settles leaves the other requests in flight. -/
theorem resume_pending (k : Cont) (o : FetchOutcome) (s : State) :
    s.pending <+: (resume k o s).pending := by
  cases k with
  | loadHabits after =>
    obtain ⟨t, ht, _, h2, _, _⟩ := loadHabitsResume_eq after o s
    simp only [resume, ht]
    rw [← h2]
    cases after with
    | nothing => simp [afterLoadHabits]
    | saveCompletion =>
      simp only [afterLoadHabits]
      split_ifs <;> simp
  | loadAnalytics =>
    simp only [resume, loadAnalyticsResume, loadAnalyticsFailed]
    split
    · simp [renderAnalytics_pending]
    · split
      · simp [renderAnalytics_pending]
      · split <;> simp [renderAnalytics_pending]
  | addHabit =>
    simp only [resume, addHabitResume]
    split
    · simp [addHabitFailed]
    · split_ifs <;> simp [showTab, addHabitFailed]
  | deleteHabit =>
    simp only [resume, deleteHabitResume]
    split
    · simp [deleteHabitFailed]
    · split_ifs
      · simp
      · simp [deleteHabitFailed]
  | saveCompletion =>
    simp only [resume, saveCompletionResume]
    split
    · simp [saveCompletionFailed]
    · split_ifs <;> simp [saveCompletionFailed]
  | viewCompletions =>
    simp only [resume, viewCompletionsResume, viewCompletionsFailed]
    split
    · simp
    · split
      · simp
      · split
        · simp only [showCompletions]
          split_ifs <;> simp
        · simp


/-- An event of the user leaves the requests in flight as they are, adding its own. -/
theorem event_pending (t : State) (e : Event) (h : ∀ i o, e ≠ .settled i o) :
    t.pending <+: (handle t e).pending := by
  cases e with
  | settled i o => exact absurd rfl (h i o)
  | click target =>
    cases target with
    | navBtn tab =>
      simp only [handle, showTab]
      split_ifs <;> simp
    | close => simp [handle]
    | modal => simp [handle]
    | other => simp [handle]
  | keydown key =>
    simp only [handle]
    split_ifs <;> simp
  | submitHabitForm =>
    simp only [handle, addHabit]
    split_ifs <;> simp [fetch]
  | submitCompletionForm =>
    simp only [handle, saveCompletion]
    split_ifs <;> simp [fetch]
  | inputCraving value => simp [handle]
  | inputResistance value => simp [handle]
  | clickDelete habitId confirmed =>
    simp only [handle, deleteHabit]
    split_ifs <;> simp [fetch]
  | clickComplete habitId => simp [handle, openCompletionModal]
  | clickStatistics habitId => simp [handle, viewCompletions, fetch]

/-- A request in flight stays in flight, with the code waiting for it, across every event
but its own settling: the reload `saveCompletion` awaits is there to settle after any run. -/
theorem pending_persists (t : State) (e : Event) (j : Nat) (p : Pending)
    (hp : t.pending[j]? = some p) (hne : ∀ o, e ≠ .settled j o) :
    ∃ j' : Nat, (handle t e).pending[j']? = some p := by
  have hj : j < t.pending.length := by
    rcases Nat.lt_or_ge j t.pending.length with h | h
    · exact h
    · rw [List.getElem?_eq_none h] at hp
      cases hp
  have key : ∀ (l l2 : List Pending) (j' : Nat), l[j']? = some p → l <+: l2 →
      l2[j']? = some p := by
    intro l l2 j' h1 h2
    obtain ⟨x, rfl⟩ := h2
    have hj' : j' < l.length := by
      rcases Nat.lt_or_ge j' l.length with h | h
      · exact h
      · rw [List.getElem?_eq_none h] at h1
        cases h1
    exact (List.getElem?_append_left hj').trans h1
  by_cases hs : ∃ i o, e = .settled i o
  · obtain ⟨i, o, rfl⟩ := hs
    have hij : i ≠ j := fun h => hne o (by rw [h])
    simp only [handle, fetchSettled]
    cases hq : t.pending[i]? with
    | none => exact ⟨j, hp⟩
    | some q =>
      simp only
      rcases Nat.lt_or_gt_of_ne hij with h | h
      · refine ⟨j - 1, key _ _ _ ?_ (resume_pending _ _ _)⟩
        simp only
        rw [List.getElem?_eraseIdx]
        have : ¬ j - 1 < i := by omega
        simp only [this, if_false]
        have : j - 1 + 1 = j := by omega
        rw [this]
        exact hp
      · refine ⟨j, key _ _ _ ?_ (resume_pending _ _ _)⟩
        simp only
        rw [List.getElem?_eraseIdx]
        simp only [h, if_true]
        exact hp
  · have hs' : ∀ i o, e ≠ .settled i o := fun i o h => hs ⟨i, o, h⟩
    exact ⟨j, key _ _ _ hp (event_pending t e hs')⟩

/-! ### The charts of several controllers -/

/-- The method `renderChart` keeps the chart numbered and destroys no number. -/
theorem renderChart_numbered (habitStats : List HabitStat) (s : State) (h : ChartNumbered s) :
    ChartNumbered (renderChart habitStats s) ∧
    s.chartsCreated ≤ (renderChart habitStats s).chartsCreated := by
  unfold renderChart ChartNumbered at *
  cases hch : s.chart with
  | none => split_ifs <;> simp [hch]
  | some c =>
    have := h c hch
    split_ifs <;> simp [hch, destroyChart, this]

/-- The method `renderAnalytics` keeps the chart numbered. -/
theorem renderAnalytics_numbered (analytics : Analytics) (s : State) (h : ChartNumbered s) :
    ChartNumbered (renderAnalytics analytics s) ∧
    s.chartsCreated ≤ (renderAnalytics analytics s).chartsCreated := by
  unfold renderAnalytics
  split
  · exact ⟨h, Nat.le_refl _⟩
  · split
    · exact ⟨h, Nat.le_refl _⟩
    · rename_i totals _ _
      obtain ⟨f1, _, f3, _⟩ := statCards_frame (analytics.habit_stats.getD [])
        { s with dom := { s.dom with statsGrid := totalsHtml totals } }
      have h2 := renderChart_numbered (analytics.habit_stats.getD []) _
        (show ChartNumbered ((analytics.habit_stats.getD []).foldl
          (fun s stat =>
            { s with dom := { s.dom with statsGrid := s.dom.statsGrid ++ statCard stat } })
          { s with dom := { s.dom with statsGrid := totalsHtml totals } }) from by
            unfold ChartNumbered
            rw [f1, f3]
            exact h)
      rw [f3] at h2
      exact h2

/-- A state with the same chart fields is numbered as well. -/
theorem ChartNumbered.keeps {s t : State} (h : ChartNumbered s)
    (h1 : t.chart = s.chart ∧ t.liveCharts = s.liveCharts ∧ t.chartsCreated = s.chartsCreated) :
    ChartNumbered t ∧ s.chartsCreated ≤ t.chartsCreated := by
  unfold ChartNumbered at *
  rw [h1.1, h1.2.2]
  exact ⟨h, Nat.le_refl _⟩

/-- The code resumed when a request settles keeps the chart numbered. -/
theorem resume_numbered (k : Cont) (o : FetchOutcome) (s : State) (h : ChartNumbered s) :
    ChartNumbered (resume k o s) ∧ s.chartsCreated ≤ (resume k o s).chartsCreated := by
  cases k with
  | loadHabits after => exact h.keeps (by simp [resume])
  | addHabit => exact h.keeps (by simp [resume])
  | deleteHabit => exact h.keeps (by simp [resume])
  | saveCompletion => exact h.keeps (by simp [resume])
  | viewCompletions => exact h.keeps (by simp [resume])
  | loadAnalytics =>
    have hf : ChartNumbered (showError "Ошибка загрузки аналитики"
        (consoleError "Error loading analytics:" s)) ∧
        s.chartsCreated = (showError "Ошибка загрузки аналитики"
        (consoleError "Error loading analytics:" s)).chartsCreated :=
      ⟨(h.keeps (by simp)).1, by simp⟩
    simp only [resume, loadAnalyticsResume, loadAnalyticsFailed]
    split
    · have := renderAnalytics_numbered ⟨some [], some []⟩ _ hf.1
      rw [← hf.2] at this
      exact this
    · split
      · have := renderAnalytics_numbered ⟨some [], some []⟩ _ hf.1
        rw [← hf.2] at this
        exact this
      · split
        · exact renderAnalytics_numbered _ _ h
        · have := renderAnalytics_numbered ⟨some [], some []⟩ _ hf.1
          rw [← hf.2] at this
          exact this

/-- Every event keeps the chart numbered. -/
theorem handle_numbered (s : State) (e : Event) (h : ChartNumbered s) :
    ChartNumbered (handle s e) ∧ s.chartsCreated ≤ (handle s e).chartsCreated := by
  cases e with
  | click target =>
    cases target <;> first | exact ⟨h, Nat.le_refl _⟩ | exact h.keeps (by simp [handle])
  | keydown key =>
    simp only [handle]
    split_ifs
    · exact h.keeps (by simp)
    · exact ⟨h, Nat.le_refl _⟩
  | submitHabitForm => exact h.keeps (by simp [handle])
  | submitCompletionForm => exact h.keeps (by simp [handle])
  | inputCraving value => exact ⟨h, Nat.le_refl _⟩
  | inputResistance value => exact ⟨h, Nat.le_refl _⟩
  | clickDelete habitId confirmed => exact h.keeps (by simp [handle])
  | clickComplete habitId => exact h.keeps (by simp [handle])
  | clickStatistics habitId => exact h.keeps (by simp [handle])
  | settled i o =>
    simp only [handle, fetchSettled]
    split
    · exact ⟨h, Nat.le_refl _⟩
    · exact resume_numbered _ _ _ h

/-- Code of one controller that keeps its chart numbered keeps those of all controllers so. -/
theorem call_numbered (k : Nat) (f : State → State) (p : Page)
    (hf : ∀ s, ChartNumbered s → ChartNumbered (f s) ∧ s.chartsCreated ≤ (f s).chartsCreated)
    (h : p.Numbered) : (p.call k f).Numbered := by
  unfold Page.call
  cases hc : p.controllers[k]? with
  | none => exact h
  | some c =>
    have hmem : c ∈ p.controllers := List.getElem?_mem hc
    have h0 : ChartNumbered (p.world.focus c) := fun ch hch => h c hmem ch hch
    obtain ⟨h1, h2⟩ := hf _ h0
    intro c' hc' ch hch
    simp only at hc' ⊢
    rcases List.mem_or_eq_of_mem_set hc' with hm | he
    · exact Nat.lt_of_lt_of_le (h c' hm ch hch) h2
    · rw [he] at hch
      exact h1 ch hch


/-- The settling of a request keeps the charts of all controllers numbered. -/
theorem settle_numbered (i : Nat) (o : FetchOutcome) (p : Page) (h : p.Numbered) :
    (p.settle i o).Numbered := by
  unfold Page.settle
  cases ho : p.owners[i]? with
  | none => exact h
  | some k =>
    simp only
    cases hc : p.controllers[k]? with
    | none => exact h
    | some c =>
      have hmem : c ∈ p.controllers := List.getElem?_mem hc
      have h0 : ChartNumbered (p.world.focus c) := fun ch hch => h c hmem ch hch
      obtain ⟨h1, h2⟩ := handle_numbered (p.world.focus c) (.settled i o) h0
      intro c' hc' ch hch
      simp only at hc' ⊢
      rcases List.mem_or_eq_of_mem_set hc' with hm | he
      · exact Nat.lt_of_lt_of_le (h c' hm ch hch) h2
      · rw [he] at hch
        exact h1 ch hch

/-- A new controller has no chart. -/
theorem construct_numbered (p : Page) (h : p.Numbered) : p.construct.Numbered := by
  intro c' hc' ch hch
  have e1 : (init (p.world.focus ⟨"http://localhost:8000", "habits", none⟩)).chart = none := by
    simp [init, World.focus]
  have e2 : (init (p.world.focus ⟨"http://localhost:8000", "habits", none⟩)).chartsCreated
      = p.world.chartsCreated := by
    simp [init, World.focus]
  simp only [Page.construct, List.mem_append, List.mem_singleton] at hc'
  simp only [Page.construct, State.world, e2]
  rcases hc' with hm | he
  · exact h c' hm ch hch
  · rw [he] at hch
    simp [State.controller, e1] at hch

/-- Listeners of several controllers, run in turn, keep the charts numbered. -/
theorem calls_numbered (ks : List Nat) (f : State → State) (p : Page)
    (hf : ∀ s, ChartNumbered s → ChartNumbered (f s) ∧ s.chartsCreated ≤ (f s).chartsCreated)
    (h : p.Numbered) : (ks.foldl (fun p k => p.call k f) p).Numbered := by
  induction ks generalizing p with
  | nil => exact h
  | cons k ks ih => exact ih _ (call_numbered k f p hf h)

/-- Every event on the page keeps the charts of all controllers numbered. -/
theorem dispatch_numbered (e : Event) (p : Page) (h : p.Numbered) :
    (p.dispatch e).Numbered := by
  cases e with
  | settled i o => exact settle_numbered i o p h
  | clickDelete habitId confirmed =>
    exact call_numbered _ _ p (fun s hs => handle_numbered s (.clickDelete habitId confirmed) hs) h
  | clickComplete habitId =>
    exact call_numbered _ _ p (fun s hs => handle_numbered s (.clickComplete habitId) hs) h
  | clickStatistics habitId =>
    exact call_numbered _ _ p (fun s hs => handle_numbered s (.clickStatistics habitId) hs) h
  | click target =>
    exact calls_numbered _ _ p (fun s hs => handle_numbered s (.click target) hs) h
  | keydown key =>
    exact calls_numbered _ _ p (fun s hs => handle_numbered s (.keydown key) hs) h
  | submitHabitForm =>
    exact calls_numbered _ _ p (fun s hs => handle_numbered s .submitHabitForm hs) h
  | submitCompletionForm =>
    exact calls_numbered _ _ p (fun s hs => handle_numbered s .submitCompletionForm hs) h
  | inputCraving value =>
    exact calls_numbered _ _ p (fun s hs => handle_numbered s (.inputCraving value) hs) h
  | inputResistance value =>
    exact calls_numbered _ _ p (fun s hs => handle_numbered s (.inputResistance value) hs) h

/-- Building several controllers keeps the charts numbered. -/
theorem constructs_numbered (ks : List Nat) (p : Page) (h : p.Numbered) :
    (ks.foldl (fun q _ => q.construct) p).Numbered := by
  induction ks generalizing p with
  | nil => exact h
  | cons k ks ih => exact ih _ (construct_numbered p h)

/-- The event `DOMContentLoaded` keeps the charts numbered. -/
theorem fire_numbered (p : Page) (h : p.Numbered) : p.fireDomContentLoaded.Numbered := by
  unfold Page.fireDomContentLoaded
  split_ifs
  · exact h
  · exact constructs_numbered _ p h

/-- The script starts with the charts numbered: there is none. -/
theorem loadScript_numbered (readyState : String) (fired : Bool) (dom : Dom)
    (defaults : FormDefaults) (today : String) :
    (loadScript readyState fired dom defaults today).Numbered := by
  unfold loadScript
  simp only
  split_ifs
  · intro c hc
    simp at hc
  · apply construct_numbered
    intro c hc
    simp at hc

/-- The charts stay numbered along every run of the page. -/
theorem run_numbered (steps : List PageEvent) (p : Page) (h : p.Numbered) :
    (p.run steps).Numbered := by
  unfold Page.run
  induction steps generalizing p with
  | nil => exact h
  | cons e steps ih =>
    apply ih
    cases e with
    | domContentLoaded => exact fire_numbered p h
    | event e => exact dispatch_numbered e p h

/-- What an analytics reload with totals does to the chart of the controller. -/
theorem loadAnalytics_replaces_chart (s : State) (i : Nat) (req : Request) (r : Response)
    (analytics : Analytics) (totals : List (String × Int))
    (hp : s.pending[i]? = some ⟨req, .loadAnalytics⟩) (hok : r.ok = true)
    (hj : r.json = .analytics analytics) (ht : analytics.total_stats = some totals)
    (hne : totals ≠ []) (hc : s.dom.hasCanvas = true) (hnum : ChartNumbered s) :
    (∀ c, s.chart = some c → c ∉ (handle s (.settled i (.response r))).liveCharts) ∧
    (analytics.habit_stats.getD [] ≠ [] →
      (handle s (.settled i (.response r))).chart = some ⟨s.chartsCreated,
        (analytics.habit_stats.getD []).map fun stat => stat.habit_name,
        (analytics.habit_stats.getD []).map fun stat => orZero stat.completion_rate⟩ ∧
      chartLive (handle s (.settled i (.response r))) = true ∧
      (handle s (.settled i (.response r))).chartsCreated = s.chartsCreated + 1) ∧
    (analytics.habit_stats.getD [] = [] →
      chartLive (handle s (.settled i (.response r))) = false ∧
      (handle s (.settled i (.response r))).chartsCreated = s.chartsCreated) := by
  rw [handle_settled s i _ _ hp]
  have hlen : ¬ totals.length = 0 := by simpa using hne
  simp only [resume, loadAnalyticsResume, hok, hj, renderAnalytics, ht, hlen, if_false,
    Bool.not_true, Bool.false_eq_true]
  obtain ⟨f1, f2, f3, f4⟩ := statCards_frame (analytics.habit_stats.getD [])
    { s with
      pending := s.pending.eraseIdx i
      dom := { s.dom with statsGrid := totalsHtml totals } }
  generalize (analytics.habit_stats.getD []).foldl
    (fun s stat =>
      { s with dom := { s.dom with statsGrid := s.dom.statsGrid ++ statCard stat } })
    { s with
      pending := s.pending.eraseIdx i
      dom := { s.dom with statsGrid := totalsHtml totals } }
    = t at f1 f2 f3 f4 ⊢
  simp only at f1 f2 f3 f4
  generalize analytics.habit_stats.getD [] = stats
  have hcv : t.dom.hasCanvas = true := by rw [f4]; exact hc
  unfold renderChart chartLive
  cases hch : s.chart with
  | none =>
    have hch' : t.chart = none := by rw [f1, hch]
    by_cases hn : stats = []
    · simp [hcv, hch', hn, f3]
    · have hn2 : ¬ stats.length = 0 := by simpa using hn
      simp [hcv, hch', hn, hn2, f3]
  | some c =>
    have hch' : t.chart = some c := by rw [f1, hch]
    have hid : c.id < s.chartsCreated := hnum c hch
    by_cases hn : stats = []
    · simp [hcv, hch', hn, f3, destroyChart]
    · have hn2 : ¬ stats.length = 0 := by simpa using hn
      simp [hcv, hch', hn, hn2, f3, destroyChart]
      intro hce
      rw [hce] at hid
      simp at hid

/-- C11, amended: in every state the page reaches, with one controller or several, when
a `GET /analytics/` of a controller is answered with non-empty `total_stats` and the page
has the chart canvas, the chart `this.chart` referred to, if any, is destroyed; when
`habit_stats` is not empty a new chart is built, `this.chart` refers to it and it is
live, its labels the habit names and its data one point per habit, the `completion_rate`
(0 when there is none); when `habit_stats` is empty or absent no chart is built and
`this.chart` refers to no live chart. -/
theorem loadAnalytics_redraws_chart (readyState : String) (fired : Bool) (dom : Dom)
    (defaults : FormDefaults) (today : String) (steps : List PageEvent) (p : Page)
    (i k : Nat) (c : Controller) (req : Request) (r : Response) (analytics : Analytics)
    (totals : List (String × Int))
    (hreach : p = (loadScript readyState fired dom defaults today).run steps)
    (hown : p.owners[i]? = some k) (hctl : p.controllers[k]? = some c)
    (hp : p.world.pending[i]? = some ⟨req, .loadAnalytics⟩) (hok : r.ok = true)
    (hj : r.json = .analytics analytics) (ht : analytics.total_stats = some totals)
    (hne : totals ≠ []) (hc : p.world.dom.hasCanvas = true) :
    ∃ c' : Controller,
      (p.dispatch (.settled i (.response r))).controllers[k]? = some c' ∧
      (∀ ch, c.chart = some ch →
        ch ∉ (p.dispatch (.settled i (.response r))).world.liveCharts) ∧
      (analytics.habit_stats.getD [] ≠ [] →
        c'.chart = some ⟨p.world.chartsCreated,
          (analytics.habit_stats.getD []).map fun stat => stat.habit_name,
          (analytics.habit_stats.getD []).map fun stat => orZero stat.completion_rate⟩ ∧
        chartLive ((p.dispatch (.settled i (.response r))).world.focus c') = true ∧
        (p.dispatch (.settled i (.response r))).world.chartsCreated
          = p.world.chartsCreated + 1) ∧
      (analytics.habit_stats.getD [] = [] →
        chartLive ((p.dispatch (.settled i (.response r))).world.focus c') = false ∧
        (p.dispatch (.settled i (.response r))).world.chartsCreated
          = p.world.chartsCreated) := by
  have hnum : p.Numbered := by
    rw [hreach]
    exact run_numbered steps _ (loadScript_numbered readyState fired dom defaults today)
  have h0 : ChartNumbered (p.world.focus c) :=
    fun ch hch => hnum c (List.getElem?_mem hctl) ch hch
  have hk : k < p.controllers.length := by
    rcases Nat.lt_or_ge k p.controllers.length with h | h
    · exact h
    · rw [List.getElem?_eq_none h] at hctl
      cases hctl
  have h := loadAnalytics_replaces_chart (p.world.focus c) i req r analytics totals hp hok hj ht
    hne hc h0
  refine ⟨(handle (p.world.focus c) (.settled i (.response r))).controller, ?_, ?_⟩
  · simp [Page.dispatch, Page.settle, hown, hctl, hk, handle]
  · simpa [Page.dispatch, Page.settle, hown, hctl, handle, focus_world] using h

/-- Witness of C11 as amended: the page of `sampleTwoControllers`, where the script has
built two controllers; the reload of the second, which has no chart yet, is answered with
one habit while the chart of the first is on the canvas. -/
theorem loadAnalytics_redraws_chart_witness :
    ∃ c' : Controller,
      (sampleTwoControllers.dispatch
        (.settled 4 (okJson (.analytics sampleAnalytics)))).controllers[1]? = some c' ∧
      (∀ ch, (Controller.mk "http://localhost:8000" "analytics" none).chart = some ch →
        ch ∉ (sampleTwoControllers.dispatch
          (.settled 4 (okJson (.analytics sampleAnalytics)))).world.liveCharts) ∧
      (sampleAnalytics.habit_stats.getD [] ≠ [] →
        c'.chart = some ⟨sampleTwoControllers.world.chartsCreated,
          (sampleAnalytics.habit_stats.getD []).map fun stat => stat.habit_name,
          (sampleAnalytics.habit_stats.getD []).map fun stat => orZero stat.completion_rate⟩ ∧
        chartLive ((sampleTwoControllers.dispatch
          (.settled 4 (okJson (.analytics sampleAnalytics)))).world.focus c') = true ∧
        (sampleTwoControllers.dispatch
          (.settled 4 (okJson (.analytics sampleAnalytics)))).world.chartsCreated
          = sampleTwoControllers.world.chartsCreated + 1) ∧
      (sampleAnalytics.habit_stats.getD [] = [] →
        chartLive ((sampleTwoControllers.dispatch
          (.settled 4 (okJson (.analytics sampleAnalytics)))).world.focus c') = false ∧
        (sampleTwoControllers.dispatch
          (.settled 4 (okJson (.analytics sampleAnalytics)))).world.chartsCreated
          = sampleTwoControllers.world.chartsCreated) :=
  loadAnalytics_redraws_chart "loading" false samplePage sampleDefaults "2024-01-01"
    [.domContentLoaded, .event (.click (.navBtn "analytics")),
      .event (.settled 4 (okJson (.analytics sampleAnalytics)))]
    sampleTwoControllers 4 1 ⟨"http://localhost:8000", "analytics", none⟩
    ⟨.GET, "http://localhost:8000/analytics/", .empty⟩ ⟨200, "", .analytics sampleAnalytics⟩
    sampleAnalytics
    [("total_habits", 1), ("daily_habits", 1), ("weekly_habits", 0), ("monthly_habits", 0)]
    rfl (by decide) (by decide) (by decide) (by decide) rfl rfl (by decide) (by decide)

end Treker
